import Mathlib

set_option maxRecDepth 16384

/-!
Verification of the scim-v2 library: the SCIM 2.0 object model, its JSON
codec (mirroring the serde derive semantics declared in `src/models/user.rs`)
and the structural validators of `src/lib.rs`.

The wire format is modelled at two levels:
* a `Json` tree (objects are ordered association lists, as produced by a
  streaming deserializer), with encoders/decoders that reproduce the serde
  attribute bindings of the source (`#[serde(rename = "...")]`, `Option`
  fields emitted as `null`, unknown keys skipped, duplicate fields rejected,
  missing required fields rejected);
* a character-level renderer and parser reproducing `serde_json::to_string`
  and `serde_json::from_str` (compact output, escape handling, whitespace
  skipping, trailing-character check).
-/

namespace Scim

/-- A JSON value. Objects are ordered lists of key/value pairs; numbers keep
their raw token text (the SCIM user model never produces numbers, so no
numeric interpretation is needed). -/
inductive Json where
  | null : Json
  | bool : Bool → Json
  | str : String → Json
  | num : String → Json
  | arr : List Json → Json
  | obj : List (String × Json) → Json

/-- Modelled from the spec: the error taxonomy of section 4.3. The file
`src/utils/error.rs` declaring `SCIMError` is not part of the sources given,
only its users in `src/lib.rs`; the four variants and their payloads follow
the spec's words (`MissingRequiredField(name)`, `InvalidFieldValue(name,
detail)`, `SerializationError(inner)`, `DeserializationError(inner)`), with
the wrapped serde errors carried as their human-readable strings. -/
inductive SCIMError where
  | MissingRequiredField : String → SCIMError
  | InvalidFieldValue : String → String → SCIMError
  | SerializationError : String → SCIMError
  | DeserializationError : String → SCIMError
deriving DecidableEq

/-- Modelled from the spec: the `Meta` common block (section 3, "Common
types"). The file `src/models/scim_schema.rs` declaring it is not among the
sources; per the spec its five attributes are required-on-read strings, and
the tests in `src/models/user.rs` access them as plain (non-optional)
fields with wire names `resourceType`, `created`, `lastModified`,
`version`, `location`. -/
structure Meta where
  resource_type : String
  created : String
  last_modified : String
  version : String
  location : String

/-- Modelled from the spec: the `manager` Reference of the EnterpriseUser
extension (sections 3 and S2). `src/models/enterprise_user.rs` is not among
the sources; the record carries `value`, `$ref` and a `displayName` label,
all optional, as exercised by the extension test in `src/models/user.rs`. -/
structure Manager where
  value : Option String
  ref_ : Option String
  display_name : Option String

/-- Modelled from the spec: the EnterpriseUser extension record (section 3).
`src/models/enterprise_user.rs` is not among the sources; the five string
attributes and the `manager` reference are all optional, with camelCase wire
names `employeeNumber`, `costCenter`, `organization`, `division`,
`department`, `manager`, as exercised by `validate_enterprise_user` in
`src/lib.rs` and the extension test in `src/models/user.rs`. -/
structure EnterpriseUser where
  employee_number : Option String
  cost_center : Option String
  organization : Option String
  division : Option String
  department : Option String
  manager : Option Manager

/-- The `Name` record of `src/models/user.rs`. -/
structure Name where
  formatted : Option String
  family_name : Option String
  given_name : Option String
  middle_name : Option String
  honorific_prefix : Option String
  honorific_suffix : Option String

/-- The `Email` record of `src/models/user.rs` (`type_` is renamed to
`type` on the wire). -/
structure Email where
  value : Option String
  display : Option String
  type_ : Option String
  primary : Option Bool

/-- The `Address` record of `src/models/user.rs`. -/
structure Address where
  formatted : Option String
  street_address : Option String
  locality : Option String
  region : Option String
  postal_code : Option String
  country : Option String
  type_ : Option String

/-- The `PhoneNumber` record of `src/models/user.rs`. -/
structure PhoneNumber where
  value : Option String
  display : Option String
  type_ : Option String
  primary : Option Bool

/-- The `Im` record of `src/models/user.rs`. -/
structure Im where
  value : Option String
  display : Option String
  type_ : Option String
  primary : Option Bool

/-- The `Photo` record of `src/models/user.rs`. -/
structure Photo where
  value : Option String
  display : Option String
  type_ : Option String
  primary : Option Bool

/-- The group-membership reference record `Group` of `src/models/user.rs`.
`ref_` carries `#[serde(rename = "$ref")]`; note that in the source the
`type_` field carries no rename attribute, so its wire name is the literal
`type_`. -/
structure Group where
  value : Option String
  ref_ : Option String
  display : Option String
  type_ : Option String

/-- The `Entitlement` record of `src/models/user.rs`. -/
structure Entitlement where
  value : Option String
  display : Option String
  type_ : Option String
  primary : Option Bool

/-- The `Role` record of `src/models/user.rs`. -/
structure Role where
  value : Option String
  display : Option String
  type_ : Option String
  primary : Option Bool

/-- The `X509Certificate` record of `src/models/user.rs`. -/
structure X509Certificate where
  value : Option String
  display : Option String
  type_ : Option String
  primary : Option Bool

/-- The `User` resource of `src/models/user.rs`, fields in declaration
order. `schemas` and `user_name` are the only non-optional fields. -/
structure User where
  schemas : List String
  id : Option String
  user_name : String
  name : Option Name
  display_name : Option String
  nick_name : Option String
  profile_url : Option String
  title : Option String
  user_type : Option String
  preferred_language : Option String
  locale : Option String
  timezone : Option String
  active : Option Bool
  password : Option String
  emails : Option (List Email)
  addresses : Option (List Address)
  phone_numbers : Option (List PhoneNumber)
  ims : Option (List Im)
  photos : Option (List Photo)
  groups : Option (List Group)
  entitlements : Option (List Entitlement)
  roles : Option (List Role)
  x509_certificates : Option (List X509Certificate)
  meta : Option Meta
  enterprise_user : Option EnterpriseUser

/-- `impl Default for User` of `src/models/user.rs`: `schemas` pre-populated
with the core-User URN, `user_name` with `"bjensen@example.com"`, every
other field `None`. -/
def User.default : User :=
  ⟨["urn:ietf:params:scim:schemas:core:2.0:User"], none, "bjensen@example.com",
   none, none, none, none, none, none, none, none, none, none, none, none,
   none, none, none, none, none, none, none, none, none, none⟩

/-- Modelled from the spec: a ServiceProviderConfig capability sub-record
carrying a `supported` boolean (section 3). `src/models/service_provider_config.rs`
is not among the sources; only the `supported` flag is read by
`validate_service_provider_config` in `src/lib.rs`. -/
structure Supported where
  supported : Bool

/-- Modelled from the spec: the `bulk` capability sub-record with its
numeric limits (section 3). -/
structure BulkConfig where
  supported : Bool
  max_operations : Int
  max_payload_size : Int

/-- Modelled from the spec: the `filter` capability sub-record with its
numeric limit (section 3). -/
structure FilterConfig where
  supported : Bool
  max_results : Int

/-- Modelled from the spec: an `authenticationSchemes` entry (section 3). -/
structure AuthenticationScheme where
  type_ : Option String
  name : Option String
  description : Option String
  spec_uri : Option String
  documentation_uri : Option String
  primary : Option Bool

/-- Modelled from the spec: the `ServiceProviderConfig` resource (section 3).
`src/models/service_provider_config.rs` is not among the sources; the six
capability sub-records are required, `documentationUri` is a top-level
string, `authenticationSchemes` an ordered list, `meta` present. -/
structure ServiceProviderConfig where
  documentation_uri : Option String
  patch : Supported
  bulk : BulkConfig
  filter : FilterConfig
  change_password : Supported
  sort : Supported
  etag : Supported
  authentication_schemes : List AuthenticationScheme
  meta : Option Meta

/-! ## Validators (`src/lib.rs`) -/

/-- `validate_user` of `src/lib.rs` (lines 140-149): `schemas` must be
non-empty, then `user_name` must be non-empty; the first violation is
returned. -/
def validate_user (user : User) : Except SCIMError Unit :=
  if user.schemas.isEmpty then
    Except.error (SCIMError.MissingRequiredField "schemas")
  else if user.user_name.isEmpty then
    Except.error (SCIMError.MissingRequiredField "user_name")
  else
    Except.ok ()

/-- `validate_service_provider_config` of `src/lib.rs` (lines 477-497): the
six capability sub-records are checked in order `patch`, `bulk`, `filter`,
`change_password`, `sort`, `etag`; the first one whose `supported` is
`false` is reported as a missing required field. -/
def validate_service_provider_config (config : ServiceProviderConfig) :
    Except SCIMError Unit :=
  if config.patch.supported = false then
    Except.error (SCIMError.MissingRequiredField "patch")
  else if config.bulk.supported = false then
    Except.error (SCIMError.MissingRequiredField "bulk")
  else if config.filter.supported = false then
    Except.error (SCIMError.MissingRequiredField "filter")
  else if config.change_password.supported = false then
    Except.error (SCIMError.MissingRequiredField "change_password")
  else if config.sort.supported = false then
    Except.error (SCIMError.MissingRequiredField "sort")
  else if config.etag.supported = false then
    Except.error (SCIMError.MissingRequiredField "etag")
  else
    Except.ok ()

/-! ## Tree-level encoder

serde's derived `Serialize` writes every field in declaration order under
its (possibly renamed) wire name; an `Option` field without
`skip_serializing_if` serializes `None` as JSON `null`. -/

/-- serde serialization of an `Option` field: `None` becomes `null`. -/
def encOpt (f : α → Json) : Option α → Json
  | none => Json.null
  | some a => f a

/-- serde serialization of a `Vec`: element-wise, in order. -/
def encList (f : α → Json) (xs : List α) : Json :=
  Json.arr (xs.map f)

def encName : Name → Json
  | ⟨f, fam, giv, mid, hp, hs⟩ =>
    Json.obj [("formatted", encOpt Json.str f),
              ("familyName", encOpt Json.str fam),
              ("givenName", encOpt Json.str giv),
              ("middleName", encOpt Json.str mid),
              ("honorificPrefix", encOpt Json.str hp),
              ("honorificSuffix", encOpt Json.str hs)]

def encEmail (e : Email) : Json :=
  Json.obj [("value", encOpt Json.str e.value),
            ("display", encOpt Json.str e.display),
            ("type", encOpt Json.str e.type_),
            ("primary", encOpt Json.bool e.primary)]

def encAddress (a : Address) : Json :=
  Json.obj [("formatted", encOpt Json.str a.formatted),
            ("streetAddress", encOpt Json.str a.street_address),
            ("locality", encOpt Json.str a.locality),
            ("region", encOpt Json.str a.region),
            ("postalCode", encOpt Json.str a.postal_code),
            ("country", encOpt Json.str a.country),
            ("type", encOpt Json.str a.type_)]

def encPhoneNumber (p : PhoneNumber) : Json :=
  Json.obj [("value", encOpt Json.str p.value),
            ("display", encOpt Json.str p.display),
            ("type", encOpt Json.str p.type_),
            ("primary", encOpt Json.bool p.primary)]

def encIm (i : Im) : Json :=
  Json.obj [("value", encOpt Json.str i.value),
            ("display", encOpt Json.str i.display),
            ("type", encOpt Json.str i.type_),
            ("primary", encOpt Json.bool i.primary)]

def encPhoto (p : Photo) : Json :=
  Json.obj [("value", encOpt Json.str p.value),
            ("display", encOpt Json.str p.display),
            ("type", encOpt Json.str p.type_),
            ("primary", encOpt Json.bool p.primary)]

/-- Wire form of a group-membership reference: `$ref` is renamed, but the
source's `type_` field has no rename attribute, so serde uses the field
name `type_` itself as the key. -/
def encGroup (g : Group) : Json :=
  Json.obj [("value", encOpt Json.str g.value),
            ("$ref", encOpt Json.str g.ref_),
            ("display", encOpt Json.str g.display),
            ("type_", encOpt Json.str g.type_)]

def encEntitlement (e : Entitlement) : Json :=
  Json.obj [("value", encOpt Json.str e.value),
            ("display", encOpt Json.str e.display),
            ("type", encOpt Json.str e.type_),
            ("primary", encOpt Json.bool e.primary)]

def encRole (r : Role) : Json :=
  Json.obj [("value", encOpt Json.str r.value),
            ("display", encOpt Json.str r.display),
            ("type", encOpt Json.str r.type_),
            ("primary", encOpt Json.bool r.primary)]

def encX509 (x : X509Certificate) : Json :=
  Json.obj [("value", encOpt Json.str x.value),
            ("display", encOpt Json.str x.display),
            ("type", encOpt Json.str x.type_),
            ("primary", encOpt Json.bool x.primary)]

def encMeta (m : Meta) : Json :=
  Json.obj [("resourceType", Json.str m.resource_type),
            ("created", Json.str m.created),
            ("lastModified", Json.str m.last_modified),
            ("version", Json.str m.version),
            ("location", Json.str m.location)]

def encManager (m : Manager) : Json :=
  Json.obj [("value", encOpt Json.str m.value),
            ("$ref", encOpt Json.str m.ref_),
            ("displayName", encOpt Json.str m.display_name)]

def encEnterpriseUser (e : EnterpriseUser) : Json :=
  Json.obj [("employeeNumber", encOpt Json.str e.employee_number),
            ("costCenter", encOpt Json.str e.cost_center),
            ("organization", encOpt Json.str e.organization),
            ("division", encOpt Json.str e.division),
            ("department", encOpt Json.str e.department),
            ("manager", encOpt encManager e.manager)]

/-- The extension slot's literal URN key. -/
def enterpriseUrn : String :=
  "urn:ietf:params:scim:schemas:extension:enterprise:2.0:User"

/-- serde serialization of `User`: all 25 fields, in declaration order,
under their wire names; `Option` fields emit `null` when `None` (the source
has no `skip_serializing_if` attributes). -/
def userEntries (u : User) : List (String × Json) :=
  [("schemas", encList Json.str u.schemas),
            ("id", encOpt Json.str u.id),
            ("userName", Json.str u.user_name),
            ("name", encOpt encName u.name),
            ("displayName", encOpt Json.str u.display_name),
            ("nickName", encOpt Json.str u.nick_name),
            ("profileUrl", encOpt Json.str u.profile_url),
            ("title", encOpt Json.str u.title),
            ("userType", encOpt Json.str u.user_type),
            ("preferredLanguage", encOpt Json.str u.preferred_language),
            ("locale", encOpt Json.str u.locale),
            ("timezone", encOpt Json.str u.timezone),
            ("active", encOpt Json.bool u.active),
            ("password", encOpt Json.str u.password),
            ("emails", encOpt (encList encEmail) u.emails),
            ("addresses", encOpt (encList encAddress) u.addresses),
            ("phoneNumbers", encOpt (encList encPhoneNumber) u.phone_numbers),
            ("ims", encOpt (encList encIm) u.ims),
            ("photos", encOpt (encList encPhoto) u.photos),
            ("groups", encOpt (encList encGroup) u.groups),
            ("entitlements", encOpt (encList encEntitlement) u.entitlements),
            ("roles", encOpt (encList encRole) u.roles),
            ("x509Certificates", encOpt (encList encX509) u.x509_certificates),
   ("meta", encOpt encMeta u.meta),
   (enterpriseUrn, encOpt encEnterpriseUser u.enterprise_user)]

def encUser (u : User) : Json :=
  Json.obj (userEntries u)

/-! ## Tree-level decoder

serde's derived `Deserialize` walks the object's entries: a known wire name
fills its field (erroring on a second occurrence), an unknown key is
skipped, `null` or absence leaves an `Option` field `None`, and a missing
non-`Option` field is an error. Since which error fires does not depend on
entry order, this is modelled by per-key lookups over the ordered entry
list plus a duplicate check over the known keys. -/

/-- First value stored under `key`, if any. -/
def findKey : List (String × Json) → String → Option Json
  | [], _ => none
  | (k, v) :: es, key => if k = key then some v else findKey es key

/-- The keys of an entry list, in order. -/
def keyNames (es : List (String × Json)) : List String :=
  es.map Prod.fst

/-- How many entries carry `key`. -/
def countKey (es : List (String × Json)) (key : String) : Nat :=
  (keyNames es).count key

/-- serde's duplicate-field rejection, restricted (as serde is) to the
struct's known wire names. -/
def dupKey (es : List (String × Json)) (keys : List String) : Bool :=
  keys.any fun k => decide (2 ≤ countKey es k)

def decStr : Json → Except String String
  | Json.str s => Except.ok s
  | _ => Except.error "invalid type: expected a string"

def decBool : Json → Except String Bool
  | Json.bool b => Except.ok b
  | _ => Except.error "invalid type: expected a boolean"

/-- Element-wise decoding of a JSON array into a `Vec`, first error wins. -/
def mapME (f : α → Except String β) : List α → Except String (List β)
  | [] => Except.ok []
  | x :: xs => do
    let y ← f x
    let ys ← mapME f xs
    pure (y :: ys)

def decArr (f : Json → Except String α) : Json → Except String (List α)
  | Json.arr xs => mapME f xs
  | _ => Except.error "invalid type: expected an array"

/-- An optional field: absent or `null` is `None`; otherwise the value must
decode. -/
def decOptJson (f : Json → Except String α) : Option Json → Except String (Option α)
  | none => Except.ok none
  | some Json.null => Except.ok none
  | some j => Except.map some (f j)

def optField (look : String → Option Json) (key : String)
    (f : Json → Except String α) : Except String (Option α) :=
  decOptJson f (look key)

/-- A required field: absence is an error; `null` reaches `f` and is a type
error there. -/
def reqField (look : String → Option Json) (key : String)
    (f : Json → Except String α) : Except String α :=
  match look key with
  | none => Except.error ("missing field " ++ key)
  | some j => f j

/-- Decode a struct from a JSON object: duplicate known keys are rejected,
then the fields are read from the (first-occurrence) lookup. -/
def decStruct (keys : List String)
    (fromLook : (String → Option Json) → Except String α) :
    Json → Except String α
  | Json.obj es =>
    if dupKey es keys then Except.error "duplicate field"
    else fromLook (findKey es)
  | _ => Except.error "invalid type: expected a struct"

def nameKeys : List String :=
  ["formatted", "familyName", "givenName", "middleName", "honorificPrefix",
   "honorificSuffix"]

def decNameFrom (look : String → Option Json) : Except String Name := do
  let f ← optField look "formatted" decStr
  let fam ← optField look "familyName" decStr
  let giv ← optField look "givenName" decStr
  let mid ← optField look "middleName" decStr
  let hp ← optField look "honorificPrefix" decStr
  let hs ← optField look "honorificSuffix" decStr
  pure ⟨f, fam, giv, mid, hp, hs⟩

def decName : Json → Except String Name := decStruct nameKeys decNameFrom

def mvKeys : List String := ["value", "display", "type", "primary"]

def decEmailFrom (look : String → Option Json) : Except String Email := do
  let v ← optField look "value" decStr
  let d ← optField look "display" decStr
  let t ← optField look "type" decStr
  let p ← optField look "primary" decBool
  pure ⟨v, d, t, p⟩

def decEmail : Json → Except String Email := decStruct mvKeys decEmailFrom

def addressKeys : List String :=
  ["formatted", "streetAddress", "locality", "region", "postalCode",
   "country", "type"]

def decAddressFrom (look : String → Option Json) : Except String Address := do
  let f ← optField look "formatted" decStr
  let sa ← optField look "streetAddress" decStr
  let l ← optField look "locality" decStr
  let r ← optField look "region" decStr
  let pc ← optField look "postalCode" decStr
  let c ← optField look "country" decStr
  let t ← optField look "type" decStr
  pure ⟨f, sa, l, r, pc, c, t⟩

def decAddress : Json → Except String Address := decStruct addressKeys decAddressFrom

def decPhoneNumberFrom (look : String → Option Json) : Except String PhoneNumber := do
  let v ← optField look "value" decStr
  let d ← optField look "display" decStr
  let t ← optField look "type" decStr
  let p ← optField look "primary" decBool
  pure ⟨v, d, t, p⟩

def decPhoneNumber : Json → Except String PhoneNumber :=
  decStruct mvKeys decPhoneNumberFrom

def decImFrom (look : String → Option Json) : Except String Im := do
  let v ← optField look "value" decStr
  let d ← optField look "display" decStr
  let t ← optField look "type" decStr
  let p ← optField look "primary" decBool
  pure ⟨v, d, t, p⟩

def decIm : Json → Except String Im := decStruct mvKeys decImFrom

def decPhotoFrom (look : String → Option Json) : Except String Photo := do
  let v ← optField look "value" decStr
  let d ← optField look "display" decStr
  let t ← optField look "type" decStr
  let p ← optField look "primary" decBool
  pure ⟨v, d, t, p⟩

def decPhoto : Json → Except String Photo := decStruct mvKeys decPhotoFrom

/-- The wire names of the membership record: `type_` is NOT renamed in the
source, so serde both writes and reads the literal key `type_`. -/
def groupKeys : List String := ["value", "$ref", "display", "type_"]

def decGroupFrom (look : String → Option Json) : Except String Group := do
  let v ← optField look "value" decStr
  let r ← optField look "$ref" decStr
  let d ← optField look "display" decStr
  let t ← optField look "type_" decStr
  pure ⟨v, r, d, t⟩

def decGroup : Json → Except String Group := decStruct groupKeys decGroupFrom

def decEntitlementFrom (look : String → Option Json) : Except String Entitlement := do
  let v ← optField look "value" decStr
  let d ← optField look "display" decStr
  let t ← optField look "type" decStr
  let p ← optField look "primary" decBool
  pure ⟨v, d, t, p⟩

def decEntitlement : Json → Except String Entitlement :=
  decStruct mvKeys decEntitlementFrom

def decRoleFrom (look : String → Option Json) : Except String Role := do
  let v ← optField look "value" decStr
  let d ← optField look "display" decStr
  let t ← optField look "type" decStr
  let p ← optField look "primary" decBool
  pure ⟨v, d, t, p⟩

def decRole : Json → Except String Role := decStruct mvKeys decRoleFrom

def decX509From (look : String → Option Json) : Except String X509Certificate := do
  let v ← optField look "value" decStr
  let d ← optField look "display" decStr
  let t ← optField look "type" decStr
  let p ← optField look "primary" decBool
  pure ⟨v, d, t, p⟩

def decX509 : Json → Except String X509Certificate := decStruct mvKeys decX509From

def metaKeys : List String :=
  ["resourceType", "created", "lastModified", "version", "location"]

def decMetaFrom (look : String → Option Json) : Except String Meta := do
  let rt ← reqField look "resourceType" decStr
  let c ← reqField look "created" decStr
  let lm ← reqField look "lastModified" decStr
  let v ← reqField look "version" decStr
  let l ← reqField look "location" decStr
  pure ⟨rt, c, lm, v, l⟩

def decMeta : Json → Except String Meta := decStruct metaKeys decMetaFrom

def managerKeys : List String := ["value", "$ref", "displayName"]

def decManagerFrom (look : String → Option Json) : Except String Manager := do
  let v ← optField look "value" decStr
  let r ← optField look "$ref" decStr
  let dn ← optField look "displayName" decStr
  pure ⟨v, r, dn⟩

def decManager : Json → Except String Manager := decStruct managerKeys decManagerFrom

def enterpriseKeys : List String :=
  ["employeeNumber", "costCenter", "organization", "division", "department",
   "manager"]

def decEnterpriseUserFrom (look : String → Option Json) : Except String EnterpriseUser := do
  let en ← optField look "employeeNumber" decStr
  let cc ← optField look "costCenter" decStr
  let o ← optField look "organization" decStr
  let dv ← optField look "division" decStr
  let dp ← optField look "department" decStr
  let m ← optField look "manager" decManager
  pure ⟨en, cc, o, dv, dp, m⟩

def decEnterpriseUser : Json → Except String EnterpriseUser :=
  decStruct enterpriseKeys decEnterpriseUserFrom

/-- The 25 wire names the `User` struct binds. -/
def userKeys : List String :=
  ["schemas", "id", "userName", "name", "displayName", "nickName",
   "profileUrl", "title", "userType", "preferredLanguage", "locale",
   "timezone", "active", "password", "emails", "addresses", "phoneNumbers",
   "ims", "photos", "groups", "entitlements", "roles", "x509Certificates",
   "meta", enterpriseUrn]

def decUserFrom (look : String → Option Json) : Except String User := do
  let schemas ← reqField look "schemas" (decArr decStr)
  let id ← optField look "id" decStr
  let userName ← reqField look "userName" decStr
  let name ← optField look "name" decName
  let displayName ← optField look "displayName" decStr
  let nickName ← optField look "nickName" decStr
  let profileUrl ← optField look "profileUrl" decStr
  let title ← optField look "title" decStr
  let userType ← optField look "userType" decStr
  let preferredLanguage ← optField look "preferredLanguage" decStr
  let locale ← optField look "locale" decStr
  let timezone ← optField look "timezone" decStr
  let active ← optField look "active" decBool
  let password ← optField look "password" decStr
  let emails ← optField look "emails" (decArr decEmail)
  let addresses ← optField look "addresses" (decArr decAddress)
  let phoneNumbers ← optField look "phoneNumbers" (decArr decPhoneNumber)
  let ims ← optField look "ims" (decArr decIm)
  let photos ← optField look "photos" (decArr decPhoto)
  let groups ← optField look "groups" (decArr decGroup)
  let entitlements ← optField look "entitlements" (decArr decEntitlement)
  let roles ← optField look "roles" (decArr decRole)
  let x509s ← optField look "x509Certificates" (decArr decX509)
  let meta ← optField look "meta" decMeta
  let enterprise ← optField look enterpriseUrn decEnterpriseUser
  pure ⟨schemas, id, userName, name, displayName, nickName, profileUrl,
        title, userType, preferredLanguage, locale, timezone, active,
        password, emails, addresses, phoneNumbers, ims, photos, groups,
        entitlements, roles, x509s, meta, enterprise⟩

def decUser : Json → Except String User := decStruct userKeys decUserFrom

/-! ## Helpers for stating key-level facts about documents -/

/-- The top-level keys of a JSON document (objects only). -/
def jsonKeys : Json → List String
  | Json.obj es => keyNames es
  | _ => []

/-- The value stored under a top-level key of a JSON document. -/
def lookupKey : Json → String → Option Json
  | Json.obj es, key => findKey es key
  | _, _ => none

def coreUserUrn : String := "urn:ietf:params:scim:schemas:core:2.0:User"

/-- A `User` with the given `schemas` and `user_name` and every optional
attribute absent. -/
def userWith (ss : List String) (un : String) : User :=
  ⟨ss, none, un, none, none, none, none, none, none, none, none, none, none,
   none, none, none, none, none, none, none, none, none, none, none, none⟩

/-- A group-membership reference with all four attributes set (RFC 7643's
Tour Guides example plus a membership `type`). -/
def tourGuideGroup : Group :=
  ⟨some "e9e30dba-f08f-4109-8486-d5c6a331660a",
   some "https://example.com/v2/Groups/e9e30dba-f08f-4109-8486-d5c6a331660a",
   some "Tour Guides", some "direct"⟩

/-- A minimal user carrying one group membership. -/
def userWithGroup : User :=
  ⟨[coreUserUrn], none, "bjensen@example.com", none, none, none, none, none,
   none, none, none, none, none, none, none, none, none, none, none,
   some [tourGuideGroup], none, none, none, none, none⟩

/-- What decoding `c4doc` yields: `schemas`, `id` and `userName` are
populated, and nothing holds the `externalId` value. -/
def c4User : User :=
  ⟨[coreUserUrn], some "2819c223-7f76-453a-919d-413861904646",
   "bjensen@example.com", none, none, none, none, none, none, none, none,
   none, none, none, none, none, none, none, none, none, none, none, none,
   none, none⟩

/-! ## Character-level renderer

`serde_json::to_string` emits compact JSON: no whitespace, strings escaped
(`"` and `\` with a backslash, control characters as `\b \t \n \f \r` or
`\u00XX` with lowercase hex, everything else verbatim). -/

/-- Lowercase hex digit for `n < 16`. -/
def hexDigitChar (n : Nat) : Char :=
  if n < 10 then Char.ofNat (48 + n) else Char.ofNat (87 + n)

/-- The escape of one string character. -/
def escChar (c : Char) : List Char :=
  if c = '"' then ['\\', '"']
  else if c = '\\' then ['\\', '\\']
  else if c.toNat < 32 then
    if c.toNat = 8 then ['\\', 'b']
    else if c.toNat = 9 then ['\\', 't']
    else if c.toNat = 10 then ['\\', 'n']
    else if c.toNat = 12 then ['\\', 'f']
    else if c.toNat = 13 then ['\\', 'r']
    else ['\\', 'u', '0', '0', hexDigitChar (c.toNat / 16), hexDigitChar (c.toNat % 16)]
  else [c]

def escList : List Char → List Char
  | [] => []
  | c :: cs => escChar c ++ escList cs

/-- A rendered string literal, quotes included. -/
def renderString (s : String) : List Char :=
  '"' :: (escList s.data ++ ['"'])

mutual

def renderJson : Json → List Char
  | Json.null => ['n', 'u', 'l', 'l']
  | Json.bool true => ['t', 'r', 'u', 'e']
  | Json.bool false => ['f', 'a', 'l', 's', 'e']
  | Json.str s => renderString s
  | Json.num raw => raw.data
  | Json.arr xs => '[' :: (renderElems xs ++ [']'])
  | Json.obj ms => '{' :: (renderMems ms ++ ['}'])

def renderElems : List Json → List Char
  | [] => []
  | [x] => renderJson x
  | x :: xs => renderJson x ++ ',' :: renderElems xs

def renderMems : List (String × Json) → List Char
  | [] => []
  | [(k, v)] => renderString k ++ ':' :: renderJson v
  | (k, v) :: ms => renderString k ++ ':' :: renderJson v ++ ',' :: renderMems ms

end

def renderJsonStr (j : Json) : String := ⟨renderJson j⟩

/-- RFC 7643's minimal user document, extended with a top-level
`externalId` attribute. -/
def c4docJson : Json :=
  Json.obj
    [("schemas", Json.arr [Json.str "urn:ietf:params:scim:schemas:core:2.0:User"]),
     ("id", Json.str "2819c223-7f76-453a-919d-413861904646"),
     ("externalId", Json.str "701984"),
     ("userName", Json.str "bjensen@example.com")]

def c4doc : String := renderJsonStr c4docJson


/-! ## Character-level parser

`serde_json::from_str` semantics: whitespace (space, tab, LF, CR) between
tokens, the full string grammar (escapes, `\uXXXX` with surrogate pairs,
raw control characters rejected), strict number tokens, and a
trailing-character check after the top-level value. The recursion is fueled
(serde bounds nesting by a recursion limit; any fuel failure is an error,
as there). -/

def isWs (c : Char) : Bool :=
  c = ' ' || c = '\t' || c = '\n' || c = '\r'

def skipWs : List Char → List Char
  | [] => []
  | c :: cs => if isWs c then skipWs cs else c :: cs

def hexVal (c : Char) : Option Nat :=
  if 48 ≤ c.toNat ∧ c.toNat ≤ 57 then some (c.toNat - 48)
  else if 97 ≤ c.toNat ∧ c.toNat ≤ 102 then some (c.toNat - 87)
  else if 65 ≤ c.toNat ∧ c.toNat ≤ 70 then some (c.toNat - 55)
  else none

def hexQuad (a b c d : Char) : Option Nat := do
  let x ← hexVal a
  let y ← hexVal b
  let z ← hexVal c
  let w ← hexVal d
  pure (((x * 16 + y) * 16 + z) * 16 + w)

/-- The character named by a single-letter escape. -/
def escCode (c : Char) : Option Char :=
  if c = '"' then some '"'
  else if c = '\\' then some '\\'
  else if c = '/' then some '/'
  else if c = 'b' then some (Char.ofNat 8)
  else if c = 'f' then some (Char.ofNat 12)
  else if c = 'n' then some (Char.ofNat 10)
  else if c = 'r' then some (Char.ofNat 13)
  else if c = 't' then some (Char.ofNat 9)
  else none

/-- String body after the opening quote: the decoded characters and the
remainder past the closing quote. Raw control characters are rejected, as
serde_json does; `\uXXXX` handles surrogate pairs. Fueled like the value
parser (one unit per consumed character; the caller's fuel covers the
input length). -/
def pStrBody : Nat → List Char → Except String (List Char × List Char)
  | 0, _ => Except.error "recursion limit exceeded"
  | _ + 1, [] => Except.error "unterminated string"
  | fuel + 1, c :: cs =>
    if c = '"' then Except.ok ([], cs)
    else if c = '\\' then
      match cs with
      | [] => Except.error "unterminated string"
      | 'u' :: a :: b :: c2 :: d :: cs2 =>
        (match hexQuad a b c2 d with
         | none => Except.error "invalid hex escape"
         | some n =>
           if n < 55296 ∨ 57344 ≤ n then
             Except.map (fun p => (Char.ofNat n :: p.1, p.2)) (pStrBody fuel cs2)
           else if n < 56320 then
             match cs2 with
             | '\\' :: 'u' :: a2 :: b2 :: c3 :: d2 :: cs3 =>
               (match hexQuad a2 b2 c3 d2 with
                | none => Except.error "invalid hex escape"
                | some m =>
                  if 56320 ≤ m ∧ m < 57344 then
                    Except.map
                      (fun p =>
                        (Char.ofNat (65536 + (n - 55296) * 1024 + (m - 56320)) :: p.1, p.2))
                      (pStrBody fuel cs3)
                  else Except.error "lone leading surrogate in hex escape")
             | _ => Except.error "unexpected end of hex escape"
           else Except.error "lone trailing surrogate in hex escape")
      | e :: cs2 =>
        (match escCode e with
         | some ec => Except.map (fun p => (ec :: p.1, p.2)) (pStrBody fuel cs2)
         | none => Except.error "invalid escape")
    else if c.toNat < 32 then Except.error "control character in string"
    else Except.map (fun p => (c :: p.1, p.2)) (pStrBody fuel cs)

/-- A strict JSON number token (`-?(0|[1-9][0-9]*)(.[0-9]+)?([eE][+-]?[0-9]+)?`),
kept as raw text. -/
def pNum (cs : List Char) : Except String (String × List Char) :=
  let (sign, cs1) := match cs with
    | '-' :: r => (['-'], r)
    | _ => (([] : List Char), cs)
  match cs1 with
  | '0' :: r =>
    (match r with
     | c :: _ =>
       if c.isDigit then Except.error "invalid number"
       else pNumFrac (sign ++ ['0']) r
     | [] => pNumFrac (sign ++ ['0']) r)
  | c :: r =>
    if c.isDigit then
      pNumFrac (sign ++ c :: r.takeWhile Char.isDigit) (r.dropWhile Char.isDigit)
    else Except.error "invalid number"
  | [] => Except.error "unexpected end of number"
where
  pNumExp (acc : List Char) (cs : List Char) : Except String (String × List Char) :=
    match cs with
    | 'e' :: r => pNumExpBody (acc ++ ['e']) r
    | 'E' :: r => pNumExpBody (acc ++ ['E']) r
    | _ => Except.ok (⟨acc⟩, cs)
  pNumExpBody (acc : List Char) (cs : List Char) : Except String (String × List Char) :=
    let (sgn, cs1) := match cs with
      | '+' :: r => (['+'], r)
      | '-' :: r => (['-'], r)
      | _ => (([] : List Char), cs)
    match cs1 with
    | c :: r =>
      if c.isDigit then
        Except.ok (⟨acc ++ sgn ++ c :: r.takeWhile Char.isDigit⟩, r.dropWhile Char.isDigit)
      else Except.error "invalid number"
    | [] => Except.error "unexpected end of number"
  pNumFrac (acc : List Char) (cs : List Char) : Except String (String × List Char) :=
    match cs with
    | '.' :: r =>
      (match r with
       | c :: r2 =>
         if c.isDigit then
           pNumExp (acc ++ '.' :: c :: r2.takeWhile Char.isDigit) (r2.dropWhile Char.isDigit)
         else Except.error "invalid number"
       | [] => Except.error "unexpected end of number")
    | _ => pNumExp acc cs

mutual

def pVal : Nat → List Char → Except String (Json × List Char)
  | 0, _ => Except.error "recursion limit exceeded"
  | fuel + 1, cs =>
    match skipWs cs with
    | [] => Except.error "unexpected end of input"
    | 'n' :: 'u' :: 'l' :: 'l' :: r => Except.ok (Json.null, r)
    | 't' :: 'r' :: 'u' :: 'e' :: r => Except.ok (Json.bool true, r)
    | 'f' :: 'a' :: 'l' :: 's' :: 'e' :: r => Except.ok (Json.bool false, r)
    | '"' :: r => Except.map (fun p => (Json.str ⟨p.1⟩, p.2)) (pStrBody fuel r)
    | '[' :: r =>
      (match skipWs r with
       | [] => Except.error "unexpected end of input"
       | c2 :: r2 =>
         if c2 = ']' then Except.ok (Json.arr [], r2)
         else Except.map (fun p => (Json.arr p.1, p.2)) (pElems fuel (c2 :: r2)))
    | '{' :: r =>
      (match skipWs r with
       | [] => Except.error "unexpected end of input"
       | c2 :: r2 =>
         if c2 = '}' then Except.ok (Json.obj [], r2)
         else Except.map (fun p => (Json.obj p.1, p.2)) (pMems fuel (c2 :: r2)))
    | c :: r =>
      if c = '-' || c.isDigit then
        Except.map (fun p => (Json.num p.1, p.2)) (pNum (c :: r))
      else Except.error "expected value"

def pElems : Nat → List Char → Except String (List Json × List Char)
  | 0, _ => Except.error "recursion limit exceeded"
  | fuel + 1, cs => do
    let (j, r) ← pVal fuel cs
    match skipWs r with
    | ',' :: r2 => Except.map (fun p => (j :: p.1, p.2)) (pElems fuel r2)
    | ']' :: r2 => Except.ok ([j], r2)
    | _ => Except.error "expected comma or close bracket"

def pMems : Nat → List Char → Except String (List (String × Json) × List Char)
  | 0, _ => Except.error "recursion limit exceeded"
  | fuel + 1, cs =>
    match skipWs cs with
    | '"' :: r => do
      let (k, r1) ← pStrBody fuel r
      match skipWs r1 with
      | ':' :: r2 => do
        let (v, r3) ← pVal fuel r2
        match skipWs r3 with
        | ',' :: r4 => Except.map (fun p => ((⟨k⟩, v) :: p.1, p.2)) (pMems fuel r4)
        | '}' :: r4 => Except.ok ([(⟨k⟩, v)], r4)
        | _ => Except.error "expected comma or close brace"
      | _ => Except.error "expected colon"
    | _ => Except.error "key must be a string"

end

/-- `serde_json::from_str`: parse one value, then only whitespace may
remain. -/
def parseJson (s : String) : Except String Json :=
  match pVal (2 * s.length + 2) s.data with
  | Except.error e => Except.error e
  | Except.ok (j, r) =>
    match skipWs r with
    | [] => Except.ok j
    | _ => Except.error "trailing characters"

/-! ## The public codec entry points of `src/lib.rs` -/

/-- `user_to_json` of `src/lib.rs` (lines 186-188):
`serde_json::to_string(user).map_err(SCIMError::SerializationError)`.
Serialization of these tree-shaped values never fails, so the
`SerializationError` arm is unreachable and the result is the rendered
document. -/
def user_to_json (user : User) : Except SCIMError String :=
  Except.ok (renderJsonStr (encUser user))

/-- `json_to_user` of `src/lib.rs` (lines 225-227):
`serde_json::from_str(json).map_err(SCIMError::DeserializationError)` —
both parse errors and shape errors surface as `DeserializationError`. -/
def json_to_user (json : String) : Except SCIMError User :=
  match parseJson json with
  | Except.error e => Except.error (SCIMError.DeserializationError e)
  | Except.ok j =>
    match decUser j with
    | Except.error e => Except.error (SCIMError.DeserializationError e)
    | Except.ok u => Except.ok u

/-! ## The SCIM encoders never produce JSON numbers; `numFree` states it -/

mutual

def numFree : Json → Bool
  | Json.null => true
  | Json.bool _ => true
  | Json.str _ => true
  | Json.num _ => false
  | Json.arr xs => numFreeElems xs
  | Json.obj ms => numFreeMems ms

def numFreeElems : List Json → Bool
  | [] => true
  | x :: xs => numFree x && numFreeElems xs

def numFreeMems : List (String × Json) → Bool
  | [] => true
  | (_, v) :: ms => numFree v && numFreeMems ms

end

/-- The document carrying exactly the two required attributes. -/
def minimalUserDoc (ss : List String) (un : String) : Json :=
  Json.obj [("schemas", Json.arr (ss.map Json.str)), ("userName", Json.str un)]


/-! ## Tree-level round trip: the decoder inverts the encoder -/

theorem ebind_ok (a : α) (f : α → Except ε β) :
    (Except.ok a : Except ε α) >>= f = f a := rfl

theorem epure (a : α) : (pure a : Except ε α) = Except.ok a := rfl

theorem emap_ok (f : α → β) (a : α) :
    Except.map f (Except.ok a : Except ε α) = Except.ok (f a) := rfl

theorem mapME_encMap (f : Json → Except String α) (g : α → Json)
    (h : ∀ a, f (g a) = Except.ok a) (xs : List α) :
    mapME f (xs.map g) = Except.ok xs := by
  induction xs with
  | nil => rfl
  | cons x xs ih => simp [mapME, h x, ih, ebind_ok, epure]

theorem decArr_encList (f : Json → Except String α) (g : α → Json)
    (h : ∀ a, f (g a) = Except.ok a) (xs : List α) :
    decArr f (encList g xs) = Except.ok xs :=
  mapME_encMap f g h xs

theorem decOptJson_not_null (f : Json → Except String α) (j : Json)
    (hj : j ≠ Json.null) :
    decOptJson f (some j) = Except.map some (f j) := by
  cases j <;> first | exact absurd rfl hj | rfl

theorem decOptJson_enc (f : Json → Except String α) (g : α → Json)
    (hne : ∀ a, g a ≠ Json.null) (h : ∀ a, f (g a) = Except.ok a) :
    ∀ x : Option α, decOptJson f (some (encOpt g x)) = Except.ok x
  | none => rfl
  | some a => by
    show decOptJson f (some (g a)) = Except.ok (some a)
    rw [decOptJson_not_null f (g a) (hne a), h a]
    rfl

theorem decStr_enc (s : String) : decStr (Json.str s) = Except.ok s := rfl

theorem decOpt_str (x : Option String) :
    decOptJson decStr (some (encOpt Json.str x)) = Except.ok x :=
  decOptJson_enc decStr Json.str (fun _ h => Json.noConfusion h)
    (fun _ => rfl) x

theorem decOpt_bool (x : Option Bool) :
    decOptJson decBool (some (encOpt Json.bool x)) = Except.ok x :=
  decOptJson_enc decBool Json.bool (fun _ h => Json.noConfusion h)
    (fun _ => rfl) x

theorem decName_enc (n : Name) : decName (encName n) = Except.ok n := by
  obtain ⟨f, fam, giv, mid, hp, hs⟩ := n
  cases f <;> cases fam <;> cases giv <;> cases mid <;> cases hp <;>
    cases hs <;> rfl

theorem decEmail_enc (e : Email) : decEmail (encEmail e) = Except.ok e := by
  obtain ⟨v, d, t, p⟩ := e
  cases v <;> cases d <;> cases t <;> cases p <;> rfl

theorem decAddress_enc (a : Address) : decAddress (encAddress a) = Except.ok a := by
  obtain ⟨f, sa, l, r, pc, c, t⟩ := a
  cases f <;> cases sa <;> cases l <;> cases r <;> cases pc <;> cases c <;>
    cases t <;> rfl

theorem decPhoneNumber_enc (p : PhoneNumber) :
    decPhoneNumber (encPhoneNumber p) = Except.ok p := by
  obtain ⟨v, d, t, pr⟩ := p
  cases v <;> cases d <;> cases t <;> cases pr <;> rfl

theorem decIm_enc (i : Im) : decIm (encIm i) = Except.ok i := by
  obtain ⟨v, d, t, p⟩ := i
  cases v <;> cases d <;> cases t <;> cases p <;> rfl

theorem decPhoto_enc (p : Photo) : decPhoto (encPhoto p) = Except.ok p := by
  obtain ⟨v, d, t, pr⟩ := p
  cases v <;> cases d <;> cases t <;> cases pr <;> rfl

theorem decGroup_enc (g : Group) : decGroup (encGroup g) = Except.ok g := by
  obtain ⟨v, r, d, t⟩ := g
  cases v <;> cases r <;> cases d <;> cases t <;> rfl

theorem decEntitlement_enc (e : Entitlement) :
    decEntitlement (encEntitlement e) = Except.ok e := by
  obtain ⟨v, d, t, p⟩ := e
  cases v <;> cases d <;> cases t <;> cases p <;> rfl

theorem decRole_enc (r : Role) : decRole (encRole r) = Except.ok r := by
  obtain ⟨v, d, t, p⟩ := r
  cases v <;> cases d <;> cases t <;> cases p <;> rfl

theorem decX509_enc (x : X509Certificate) : decX509 (encX509 x) = Except.ok x := by
  obtain ⟨v, d, t, p⟩ := x
  cases v <;> cases d <;> cases t <;> cases p <;> rfl

theorem decMeta_enc (m : Meta) : decMeta (encMeta m) = Except.ok m := by
  obtain ⟨rt, c, lm, v, l⟩ := m
  rfl

theorem decManager_enc (m : Manager) : decManager (encManager m) = Except.ok m := by
  obtain ⟨v, r, dn⟩ := m
  cases v <;> cases r <;> cases dn <;> rfl

theorem decEnterpriseUser_enc (e : EnterpriseUser) :
    decEnterpriseUser (encEnterpriseUser e) = Except.ok e := by
  obtain ⟨a, b, c, d, e2, m⟩ := e
  rcases m with _ | ⟨x, y, z⟩
  · cases a <;> cases b <;> cases c <;> cases d <;> cases e2 <;> rfl
  · cases a <;> cases b <;> cases c <;> cases d <;> cases e2 <;>
      cases x <;> cases y <;> cases z <;> rfl

theorem decOpt_name (x : Option Name) :
    decOptJson decName (some (encOpt encName x)) = Except.ok x :=
  decOptJson_enc decName encName
    (fun n => by cases n; exact fun h => Json.noConfusion h)
    decName_enc x

theorem decOpt_meta (x : Option Meta) :
    decOptJson decMeta (some (encOpt encMeta x)) = Except.ok x :=
  decOptJson_enc decMeta encMeta
    (fun m => by cases m; exact fun h => Json.noConfusion h)
    decMeta_enc x

theorem decOpt_enterprise (x : Option EnterpriseUser) :
    decOptJson decEnterpriseUser (some (encOpt encEnterpriseUser x)) = Except.ok x :=
  decOptJson_enc decEnterpriseUser encEnterpriseUser
    (fun e => by cases e; exact fun h => Json.noConfusion h)
    decEnterpriseUser_enc x

theorem decOpt_emails (x : Option (List Email)) :
    decOptJson (decArr decEmail) (some (encOpt (encList encEmail) x)) = Except.ok x :=
  decOptJson_enc (decArr decEmail) (encList encEmail)
    (fun _ h => Json.noConfusion h)
    (decArr_encList decEmail encEmail decEmail_enc) x

theorem decOpt_addresses (x : Option (List Address)) :
    decOptJson (decArr decAddress) (some (encOpt (encList encAddress) x)) = Except.ok x :=
  decOptJson_enc (decArr decAddress) (encList encAddress)
    (fun _ h => Json.noConfusion h)
    (decArr_encList decAddress encAddress decAddress_enc) x

theorem decOpt_phones (x : Option (List PhoneNumber)) :
    decOptJson (decArr decPhoneNumber) (some (encOpt (encList encPhoneNumber) x)) =
      Except.ok x :=
  decOptJson_enc (decArr decPhoneNumber) (encList encPhoneNumber)
    (fun _ h => Json.noConfusion h)
    (decArr_encList decPhoneNumber encPhoneNumber decPhoneNumber_enc) x

theorem decOpt_ims (x : Option (List Im)) :
    decOptJson (decArr decIm) (some (encOpt (encList encIm) x)) = Except.ok x :=
  decOptJson_enc (decArr decIm) (encList encIm)
    (fun _ h => Json.noConfusion h)
    (decArr_encList decIm encIm decIm_enc) x

theorem decOpt_photos (x : Option (List Photo)) :
    decOptJson (decArr decPhoto) (some (encOpt (encList encPhoto) x)) = Except.ok x :=
  decOptJson_enc (decArr decPhoto) (encList encPhoto)
    (fun _ h => Json.noConfusion h)
    (decArr_encList decPhoto encPhoto decPhoto_enc) x

theorem decOpt_groups (x : Option (List Group)) :
    decOptJson (decArr decGroup) (some (encOpt (encList encGroup) x)) = Except.ok x :=
  decOptJson_enc (decArr decGroup) (encList encGroup)
    (fun _ h => Json.noConfusion h)
    (decArr_encList decGroup encGroup decGroup_enc) x

theorem decOpt_entitlements (x : Option (List Entitlement)) :
    decOptJson (decArr decEntitlement) (some (encOpt (encList encEntitlement) x)) =
      Except.ok x :=
  decOptJson_enc (decArr decEntitlement) (encList encEntitlement)
    (fun _ h => Json.noConfusion h)
    (decArr_encList decEntitlement encEntitlement decEntitlement_enc) x

theorem decOpt_roles (x : Option (List Role)) :
    decOptJson (decArr decRole) (some (encOpt (encList encRole) x)) = Except.ok x :=
  decOptJson_enc (decArr decRole) (encList encRole)
    (fun _ h => Json.noConfusion h)
    (decArr_encList decRole encRole decRole_enc) x

theorem decOpt_x509 (x : Option (List X509Certificate)) :
    decOptJson (decArr decX509) (some (encOpt (encList encX509) x)) = Except.ok x :=
  decOptJson_enc (decArr decX509) (encList encX509)
    (fun _ h => Json.noConfusion h)
    (decArr_encList decX509 encX509 decX509_enc) x

/-- The full tree-level round trip for `User`: decoding the encoding of any
value recovers the value, every attribute and list element included. -/
theorem decUser_encUser (u : User) : decUser (encUser u) = Except.ok u := by
  have h0 : decUser (encUser u) = decUserFrom (findKey (userEntries u)) := rfl
  rw [h0]
  obtain ⟨s, i, un, nm, dn, nn, pu, ti, ut, pl, lo, tz, ac, pw, em, ad, ph,
    im0, po, gr, et, ro, x5, me, eu⟩ := u
  simp only [userEntries, enterpriseUrn, decUserFrom, reqField, optField,
    findKey, String.reduceEq, reduceIte, decArr_encList decStr Json.str decStr_enc,
    decStr_enc, decOpt_str, decOpt_bool, decOpt_name, decOpt_meta,
    decOpt_enterprise, decOpt_emails, decOpt_addresses, decOpt_phones,
    decOpt_ims, decOpt_photos, decOpt_groups, decOpt_entitlements,
    decOpt_roles, decOpt_x509, ebind_ok, epure]

/-! ## Character-level round trip: the parser inverts the renderer

The SCIM encoders never produce JSON numbers, so the round trip is proved
for number-free values (`numFree`); the fuel bound is the rendered length,
which is what `parseJson` supplies. -/


theorem skipWs_cons (c : Char) (l : List Char) (h : isWs c = false) :
    skipWs (c :: l) = c :: l := by
  simp [skipWs, h]

theorem hexVal_hexDigitChar : ∀ n, n < 16 → hexVal (hexDigitChar n) = some n := by
  decide

theorem escChar_length_pos (c : Char) : 1 ≤ (escChar c).length := by
  unfold escChar
  split_ifs <;> simp

theorem escList_length_ge : ∀ l : List Char, l.length ≤ (escList l).length
  | [] => Nat.le_refl 0
  | c :: l => by
    have h1 := escChar_length_pos c
    have h2 := escList_length_ge l
    simp only [escList, List.length_append, List.length_cons]
    omega

theorem renderString_length (s : String) :
    (renderString s).length = (escList s.data).length + 2 := by
  simp [renderString]

/-- Consuming one escaped character from a string body undoes the escape. -/
theorem pStrBody_esc (c : Char) (fuel : Nat) (cs : List Char) :
    pStrBody (fuel + 1) (escChar c ++ cs) =
      Except.map (fun p => (c :: p.1, p.2)) (pStrBody fuel cs) := by
  by_cases hq : c = '"'
  · subst hq; rfl
  · by_cases hb : c = '\\'
    · subst hb; rfl
    · by_cases h32 : c.toNat < 32
      · by_cases h8 : c.toNat = 8
        · have he : escChar c = ['\\', 'b'] := by simp [escChar, hq, hb, h32, h8]
          have hc : Char.ofNat 8 = c := by rw [← h8, Char.ofNat_toNat]
          rw [he,
            show pStrBody (fuel + 1) (['\\', 'b'] ++ cs) =
              Except.map (fun p => (Char.ofNat 8 :: p.1, p.2)) (pStrBody fuel cs) from rfl,
            hc]
        · by_cases h9 : c.toNat = 9
          · have he : escChar c = ['\\', 't'] := by simp [escChar, hq, hb, h32, h8, h9]
            have hc : Char.ofNat 9 = c := by rw [← h9, Char.ofNat_toNat]
            rw [he,
              show pStrBody (fuel + 1) (['\\', 't'] ++ cs) =
                Except.map (fun p => (Char.ofNat 9 :: p.1, p.2)) (pStrBody fuel cs) from rfl,
              hc]
          · by_cases h10 : c.toNat = 10
            · have he : escChar c = ['\\', 'n'] := by
                simp [escChar, hq, hb, h32, h8, h9, h10]
              have hc : Char.ofNat 10 = c := by rw [← h10, Char.ofNat_toNat]
              rw [he,
                show pStrBody (fuel + 1) (['\\', 'n'] ++ cs) =
                  Except.map (fun p => (Char.ofNat 10 :: p.1, p.2)) (pStrBody fuel cs)
                  from rfl,
                hc]
            · by_cases h12 : c.toNat = 12
              · have he : escChar c = ['\\', 'f'] := by
                  simp [escChar, hq, hb, h32, h8, h9, h10, h12]
                have hc : Char.ofNat 12 = c := by rw [← h12, Char.ofNat_toNat]
                rw [he,
                  show pStrBody (fuel + 1) (['\\', 'f'] ++ cs) =
                    Except.map (fun p => (Char.ofNat 12 :: p.1, p.2)) (pStrBody fuel cs)
                    from rfl,
                  hc]
              · by_cases h13 : c.toNat = 13
                · have he : escChar c = ['\\', 'r'] := by
                    simp [escChar, hq, hb, h32, h8, h9, h10, h12, h13]
                  have hc : Char.ofNat 13 = c := by rw [← h13, Char.ofNat_toNat]
                  rw [he,
                    show pStrBody (fuel + 1) (['\\', 'r'] ++ cs) =
                      Except.map (fun p => (Char.ofNat 13 :: p.1, p.2)) (pStrBody fuel cs)
                      from rfl,
                    hc]
                · have he : escChar c = ['\\', 'u', '0', '0',
                      hexDigitChar (c.toNat / 16), hexDigitChar (c.toNat % 16)] := by
                    simp [escChar, hq, hb, h32, h8, h9, h10, h12, h13]
                  have hx : hexVal (hexDigitChar (c.toNat / 16)) = some (c.toNat / 16) :=
                    hexVal_hexDigitChar _ (by omega)
                  have hy : hexVal (hexDigitChar (c.toNat % 16)) = some (c.toNat % 16) :=
                    hexVal_hexDigitChar _ (by omega)
                  have hquad : hexQuad '0' '0' (hexDigitChar (c.toNat / 16))
                      (hexDigitChar (c.toNat % 16)) = some c.toNat := by
                    have h0 : hexVal '0' = some 0 := rfl
                    simp only [hexQuad, h0, hx, hy, Option.bind_eq_bind,
                      Option.some_bind, Option.pure_def, Option.some.injEq]
                    omega
                  rw [he,
                    show pStrBody (fuel + 1) (['\\', 'u', '0', '0',
                        hexDigitChar (c.toNat / 16), hexDigitChar (c.toNat % 16)] ++ cs) =
                      (match hexQuad '0' '0' (hexDigitChar (c.toNat / 16))
                          (hexDigitChar (c.toNat % 16)) with
                       | none => Except.error "invalid hex escape"
                       | some n =>
                         if n < 55296 ∨ 57344 ≤ n then
                           Except.map (fun p => (Char.ofNat n :: p.1, p.2))
                             (pStrBody fuel cs)
                         else if n < 56320 then
                           match cs with
                           | '\\' :: 'u' :: a2 :: b2 :: c3 :: d2 :: cs3 =>
                             (match hexQuad a2 b2 c3 d2 with
                              | none => Except.error "invalid hex escape"
                              | some m =>
                                if 56320 ≤ m ∧ m < 57344 then
                                  Except.map
                                    (fun p =>
                                      (Char.ofNat
                                          (65536 + (n - 55296) * 1024 + (m - 56320)) ::
                                        p.1, p.2))
                                    (pStrBody fuel cs3)
                                else Except.error "lone leading surrogate in hex escape")
                           | _ => Except.error "unexpected end of hex escape"
                         else Except.error "lone trailing surrogate in hex escape")
                      from rfl,
                    hquad]
                  have h5 : c.toNat < 55296 ∨ 57344 ≤ c.toNat := Or.inl (by omega)
                  simp only [h5, if_true, Char.ofNat_toNat]
      · have he : escChar c = [c] := by simp [escChar, hq, hb, h32]
        rw [he]
        show pStrBody (fuel + 1) (c :: cs) = _
        simp only [pStrBody]
        rw [if_neg hq, if_neg hb, if_neg h32]

/-- Parsing a rendered string body recovers exactly the characters. -/
theorem pStrBody_escList : ∀ (l : List Char) (fuel : Nat) (rest : List Char),
    l.length < fuel →
    pStrBody fuel (escList l ++ ('"' :: rest)) = Except.ok (l, rest)
  | [], fuel, rest, hf => by
    cases fuel with
    | zero => exact absurd hf (Nat.not_lt_zero _)
    | succ f => rfl
  | c :: l, fuel, rest, hf => by
    cases fuel with
    | zero => exact absurd hf (Nat.not_lt_zero _)
    | succ f =>
      rw [escList, List.append_assoc, pStrBody_esc,
        pStrBody_escList l f rest
          (by simp only [List.length_cons] at hf; omega)]
      rfl

/-- Every rendered number-free value starts with a non-whitespace character
that closes nothing. -/
theorem renderJson_head (j : Json) (hn : numFree j = true) :
    ∃ c t, renderJson j = c :: t ∧ isWs c = false ∧ c ≠ ']' ∧ c ≠ '}' := by
  cases j with
  | num raw => simp [numFree] at hn
  | null => refine ⟨'n', _, rfl, ?_, ?_, ?_⟩ <;> decide
  | bool b =>
    cases b with
    | false => refine ⟨'f', _, rfl, ?_, ?_, ?_⟩ <;> decide
    | true => refine ⟨'t', _, rfl, ?_, ?_, ?_⟩ <;> decide
  | str s => refine ⟨'"', _, rfl, ?_, ?_, ?_⟩ <;> decide
  | arr xs => refine ⟨'[', _, rfl, ?_, ?_, ?_⟩ <;> decide
  | obj ms => refine ⟨'{', _, rfl, ?_, ?_, ?_⟩ <;> decide

/-! Definitional one-step unfoldings of the parser, in the exact shapes the
round-trip proof meets. -/

theorem pVal_bracket (fuel : Nat) (l : List Char) :
    pVal (fuel + 1) ('[' :: l) =
      (match skipWs l with
       | [] => Except.error "unexpected end of input"
       | c2 :: r2 =>
         if c2 = ']' then Except.ok (Json.arr [], r2)
         else Except.map (fun p => (Json.arr p.1, p.2)) (pElems fuel (c2 :: r2))) := rfl

theorem pVal_brace (fuel : Nat) (l : List Char) :
    pVal (fuel + 1) ('{' :: l) =
      (match skipWs l with
       | [] => Except.error "unexpected end of input"
       | c2 :: r2 =>
         if c2 = '}' then Except.ok (Json.obj [], r2)
         else Except.map (fun p => (Json.obj p.1, p.2)) (pMems fuel (c2 :: r2))) := rfl

theorem pVal_arr_go (fuel : Nat) (l : List Char) (c : Char) (t : List Char)
    (h : l = c :: t) (hws : isWs c = false) (hbr : c ≠ ']') :
    (match skipWs l with
     | [] => Except.error "unexpected end of input"
     | c2 :: r2 =>
       if c2 = ']' then Except.ok (Json.arr [], r2)
       else Except.map (fun p => (Json.arr p.1, p.2)) (pElems fuel (c2 :: r2))) =
    Except.map (fun p => (Json.arr p.1, p.2)) (pElems fuel l) := by
  subst h
  rw [skipWs_cons _ _ hws]
  show (if c = ']' then Except.ok (Json.arr [], t)
    else Except.map (fun p => (Json.arr p.1, p.2)) (pElems fuel (c :: t))) = _
  rw [if_neg hbr]

theorem pVal_obj_go (fuel : Nat) (l : List Char) (c : Char) (t : List Char)
    (h : l = c :: t) (hws : isWs c = false) (hbr : c ≠ '}') :
    (match skipWs l with
     | [] => Except.error "unexpected end of input"
     | c2 :: r2 =>
       if c2 = '}' then Except.ok (Json.obj [], r2)
       else Except.map (fun p => (Json.obj p.1, p.2)) (pMems fuel (c2 :: r2))) =
    Except.map (fun p => (Json.obj p.1, p.2)) (pMems fuel l) := by
  subst h
  rw [skipWs_cons _ _ hws]
  show (if c = '}' then Except.ok (Json.obj [], t)
    else Except.map (fun p => (Json.obj p.1, p.2)) (pMems fuel (c :: t))) = _
  rw [if_neg hbr]

theorem pElems_step (fuel : Nat) (cs : List Char) :
    pElems (fuel + 1) cs =
      (pVal fuel cs >>= fun jr =>
        match skipWs jr.2 with
        | ',' :: r2 => Except.map (fun p => (jr.1 :: p.1, p.2)) (pElems fuel r2)
        | ']' :: r2 => Except.ok ([jr.1], r2)
        | _ => Except.error "expected comma or close bracket") := rfl

/-- One member: the quoted key, the colon, then the value parse. -/
theorem pMems_kv (fuel : Nat) (k : String) (tail : List Char)
    (hk : k.data.length < fuel) :
    pMems (fuel + 1) (renderString k ++ (':' :: tail)) =
      (pVal fuel tail >>= fun vr =>
        match skipWs vr.2 with
        | ',' :: r4 => Except.map (fun p => ((k, vr.1) :: p.1, p.2)) (pMems fuel r4)
        | '}' :: r4 => Except.ok ([(k, vr.1)], r4)
        | _ => Except.error "expected comma or close brace") := by
  have h1 : renderString k ++ (':' :: tail) =
      '"' :: (escList k.data ++ ('"' :: (':' :: tail))) := by
    simp [renderString]
  rw [h1,
    show pMems (fuel + 1) ('"' :: (escList k.data ++ ('"' :: (':' :: tail)))) =
      (pStrBody fuel (escList k.data ++ ('"' :: (':' :: tail))) >>= fun kr =>
        match skipWs kr.2 with
        | ':' :: r2 =>
          pVal fuel r2 >>= fun vr =>
            match skipWs vr.2 with
            | ',' :: r4 =>
              Except.map (fun p => ((⟨kr.1⟩, vr.1) :: p.1, p.2)) (pMems fuel r4)
            | '}' :: r4 => Except.ok ([(⟨kr.1⟩, vr.1)], r4)
            | _ => Except.error "expected comma or close brace"
        | _ => Except.error "expected colon") from rfl,
    pStrBody_escList k.data fuel _ hk]
  rfl

mutual

theorem rtVal : ∀ (j : Json) (fuel : Nat) (rest : List Char),
    numFree j = true → (renderJson j).length < fuel →
    pVal fuel (renderJson j ++ rest) = Except.ok (j, rest)
  | Json.null, fuel, rest, _, hf => by
    cases fuel with
    | zero => exact absurd hf (Nat.not_lt_zero _)
    | succ f => rfl
  | Json.bool b, fuel, rest, _, hf => by
    cases fuel with
    | zero => exact absurd hf (Nat.not_lt_zero _)
    | succ f => cases b <;> rfl
  | Json.num raw, _, _, hn, _ => by simp [numFree] at hn
  | Json.str s, fuel, rest, _, hf => by
    cases fuel with
    | zero => exact absurd hf (Nat.not_lt_zero _)
    | succ f =>
      have hsl : s.data.length < f := by
        have h2 : (renderJson (Json.str s)).length =
            (escList s.data).length + 2 := by
          simp [renderJson, renderString]
        have h3 := escList_length_ge s.data
        omega
      have h1 : renderJson (Json.str s) ++ rest =
          '"' :: (escList s.data ++ ('"' :: rest)) := by
        simp [renderJson, renderString]
      rw [h1,
        show pVal (f + 1) ('"' :: (escList s.data ++ ('"' :: rest))) =
          Except.map (fun p => (Json.str ⟨p.1⟩, p.2))
            (pStrBody f (escList s.data ++ ('"' :: rest))) from rfl,
        pStrBody_escList s.data f rest hsl]
      rfl
  | Json.arr [], fuel, rest, _, hf => by
    cases fuel with
    | zero => exact absurd hf (Nat.not_lt_zero _)
    | succ f => rfl
  | Json.arr (x :: xs), fuel, rest, hn, hf => by
    cases fuel with
    | zero => exact absurd hf (Nat.not_lt_zero _)
    | succ f =>
      simp only [numFree, numFreeElems, Bool.and_eq_true] at hn
      have hlen : (renderJson (Json.arr (x :: xs))).length =
          (renderElems (x :: xs)).length + 2 := by
        simp [renderJson]
      have hf2 : (renderElems (x :: xs)).length + 1 < f := by omega
      obtain ⟨t2, hsplit⟩ : ∃ t2, renderElems (x :: xs) = renderJson x ++ t2 := by
        cases xs with
        | nil => exact ⟨[], by simp [renderElems]⟩
        | cons y ys => exact ⟨',' :: renderElems (y :: ys), rfl⟩
      obtain ⟨c, t, hct, hws, hbr, _⟩ := renderJson_head x hn.1
      have hL : renderElems (x :: xs) ++ (']' :: rest) =
          c :: (t ++ (t2 ++ (']' :: rest))) := by
        rw [hsplit, hct]
        simp
      have harg : renderJson (Json.arr (x :: xs)) ++ rest =
          '[' :: (renderElems (x :: xs) ++ (']' :: rest)) := by
        simp [renderJson]
      rw [harg, pVal_bracket, pVal_arr_go f _ c (t ++ (t2 ++ (']' :: rest))) hL hws hbr,
        rtElems x xs f rest hn.1 hn.2 hf2]
      rfl
  | Json.obj [], fuel, rest, _, hf => by
    cases fuel with
    | zero => exact absurd hf (Nat.not_lt_zero _)
    | succ f => rfl
  | Json.obj ((k, v) :: ms), fuel, rest, hn, hf => by
    cases fuel with
    | zero => exact absurd hf (Nat.not_lt_zero _)
    | succ f =>
      simp only [numFree, numFreeMems, Bool.and_eq_true] at hn
      have hlen : (renderJson (Json.obj ((k, v) :: ms))).length =
          (renderMems ((k, v) :: ms)).length + 2 := by
        simp [renderJson]
      have hf2 : (renderMems ((k, v) :: ms)).length + 1 < f := by omega
      obtain ⟨t2, hsplit⟩ :
          ∃ t2, renderMems ((k, v) :: ms) =
            renderString k ++ (':' :: (renderJson v ++ t2)) := by
        cases ms with
        | nil => exact ⟨[], by simp [renderMems]⟩
        | cons m2 ms2 =>
          obtain ⟨k2, v2⟩ := m2
          exact ⟨',' :: renderMems ((k2, v2) :: ms2), by simp [renderMems]⟩
      have hL : renderMems ((k, v) :: ms) ++ ('}' :: rest) =
          '"' :: ((escList k.data ++ ('"' :: (':' :: (renderJson v ++ t2)))) ++
            ('}' :: rest)) := by
        rw [hsplit]
        simp [renderString]
      have harg : renderJson (Json.obj ((k, v) :: ms)) ++ rest =
          '{' :: (renderMems ((k, v) :: ms) ++ ('}' :: rest)) := by
        simp [renderJson]
      rw [harg, pVal_brace,
        pVal_obj_go f _ '"' _ hL (by decide) (by decide),
        rtMems k v ms f rest hn.1 hn.2 hf2]
      rfl
termination_by j _ _ _ _ => sizeOf j

theorem rtElems : ∀ (x : Json) (xs : List Json) (fuel : Nat) (rest : List Char),
    numFree x = true → numFreeElems xs = true →
    (renderElems (x :: xs)).length + 1 < fuel →
    pElems fuel (renderElems (x :: xs) ++ (']' :: rest)) = Except.ok (x :: xs, rest)
  | x, [], fuel, rest, hnx, _, hf => by
    cases fuel with
    | zero => exact absurd hf (Nat.not_lt_zero _)
    | succ f =>
      have hfx : (renderJson x).length < f := by
        have h1 : (renderElems [x]).length = (renderJson x).length := by
          simp [renderElems]
        omega
      have harg : renderElems [x] ++ (']' :: rest) = renderJson x ++ (']' :: rest) := by
        simp [renderElems]
      rw [harg, pElems_step, rtVal x f (']' :: rest) hnx hfx]
      rfl
  | x, y :: ys, fuel, rest, hnx, hny, hf => by
    cases fuel with
    | zero => exact absurd hf (Nat.not_lt_zero _)
    | succ f =>
      simp only [numFreeElems, Bool.and_eq_true] at hny
      have hlen : (renderElems (x :: y :: ys)).length =
          (renderJson x).length + 1 + (renderElems (y :: ys)).length := by
        simp [renderElems]
        omega
      have hfx : (renderJson x).length < f := by omega
      have hfy : (renderElems (y :: ys)).length + 1 < f := by omega
      have harg : renderElems (x :: y :: ys) ++ (']' :: rest) =
          renderJson x ++ (',' :: (renderElems (y :: ys) ++ (']' :: rest))) := by
        simp [renderElems]
      rw [harg, pElems_step, rtVal x f _ hnx hfx]
      show Except.map (fun p => (x :: p.1, p.2))
        (pElems f (renderElems (y :: ys) ++ (']' :: rest))) = _
      rw [rtElems y ys f rest hny.1 hny.2 hfy]
      rfl
termination_by x xs _ _ _ _ _ => sizeOf x + sizeOf xs

theorem rtMems : ∀ (k : String) (v : Json) (ms : List (String × Json))
    (fuel : Nat) (rest : List Char),
    numFree v = true → numFreeMems ms = true →
    (renderMems ((k, v) :: ms)).length + 1 < fuel →
    pMems fuel (renderMems ((k, v) :: ms) ++ ('}' :: rest)) =
      Except.ok ((k, v) :: ms, rest)
  | k, v, [], fuel, rest, hnv, _, hf => by
    cases fuel with
    | zero => exact absurd hf (Nat.not_lt_zero _)
    | succ f =>
      have h1 : (renderMems [(k, v)]).length =
          (renderString k).length + 1 + (renderJson v).length := by
        simp [renderMems]
        omega
      have h2 := renderString_length k
      have h3 := escList_length_ge k.data
      have hfv : (renderJson v).length < f := by omega
      have hkb : k.data.length < f := by omega
      have harg : renderMems [(k, v)] ++ ('}' :: rest) =
          renderString k ++ (':' :: (renderJson v ++ ('}' :: rest))) := by
        simp [renderMems]
      rw [harg, pMems_kv f k _ hkb, rtVal v f _ hnv hfv]
      rfl
  | k, v, (k2, v2) :: ms2, fuel, rest, hnv, hnm, hf => by
    cases fuel with
    | zero => exact absurd hf (Nat.not_lt_zero _)
    | succ f =>
      simp only [numFreeMems, Bool.and_eq_true] at hnm
      have hlen : (renderMems ((k, v) :: (k2, v2) :: ms2)).length =
          (renderString k).length + 1 + (renderJson v).length + 1 +
            (renderMems ((k2, v2) :: ms2)).length := by
        simp [renderMems]
        omega
      have h2 := renderString_length k
      have h3 := escList_length_ge k.data
      have hfv : (renderJson v).length < f := by omega
      have hfm : (renderMems ((k2, v2) :: ms2)).length + 1 < f := by omega
      have hkb : k.data.length < f := by omega
      have harg : renderMems ((k, v) :: (k2, v2) :: ms2) ++ ('}' :: rest) =
          renderString k ++
            (':' :: (renderJson v ++
              (',' :: (renderMems ((k2, v2) :: ms2) ++ ('}' :: rest))))) := by
        simp [renderMems]
      rw [harg, pMems_kv f k _ hkb, rtVal v f _ hnv hfv]
      show Except.map (fun p => ((k, v) :: p.1, p.2))
        (pMems f (renderMems ((k2, v2) :: ms2) ++ ('}' :: rest))) = _
      rw [rtMems k2 v2 ms2 f rest hnm.1 hnm.2 hfm]
      rfl
termination_by _ v ms _ _ _ _ _ => sizeOf v + sizeOf ms

end

/-- The codec identity at the string level: parsing a rendered number-free
value gives it back. -/
theorem parseJson_render (j : Json) (hn : numFree j = true) :
    parseJson (renderJsonStr j) = Except.ok j := by
  have hl : (renderJsonStr j).length = (renderJson j).length := rfl
  have h2 := rtVal j (2 * (renderJsonStr j).length + 2) [] hn (by omega)
  have h3 : renderJson j ++ [] = (renderJsonStr j).data := by
    simp [renderJsonStr]
  rw [h3] at h2
  simp only [parseJson, h2, skipWs]

/-! ## The encoders never produce numbers -/

theorem numFree_optStr (x : Option String) : numFree (encOpt Json.str x) = true := by
  cases x <;> simp [encOpt, numFree]

theorem numFree_optBool (x : Option Bool) : numFree (encOpt Json.bool x) = true := by
  cases x <;> simp [encOpt, numFree]

theorem numFreeElems_map (g : α → Json) (h : ∀ a, numFree (g a) = true) :
    ∀ xs : List α, numFreeElems (xs.map g) = true
  | [] => by simp [numFreeElems]
  | x :: xs => by
    simp [numFreeElems, h x, numFreeElems_map g h xs]

theorem numFree_encList (g : α → Json) (h : ∀ a, numFree (g a) = true)
    (xs : List α) : numFree (encList g xs) = true := by
  simp [encList, numFree, numFreeElems_map g h]

theorem numFree_encName (n : Name) : numFree (encName n) = true := by
  obtain ⟨f, fam, giv, mid, hp, hs⟩ := n
  simp [encName, numFree, numFreeMems, numFree_optStr]

theorem numFree_encEmail (e : Email) : numFree (encEmail e) = true := by
  simp [encEmail, numFree, numFreeMems, numFree_optStr, numFree_optBool]

theorem numFree_encAddress (a : Address) : numFree (encAddress a) = true := by
  simp [encAddress, numFree, numFreeMems, numFree_optStr]

theorem numFree_encPhoneNumber (p : PhoneNumber) : numFree (encPhoneNumber p) = true := by
  simp [encPhoneNumber, numFree, numFreeMems, numFree_optStr, numFree_optBool]

theorem numFree_encIm (i : Im) : numFree (encIm i) = true := by
  simp [encIm, numFree, numFreeMems, numFree_optStr, numFree_optBool]

theorem numFree_encPhoto (p : Photo) : numFree (encPhoto p) = true := by
  simp [encPhoto, numFree, numFreeMems, numFree_optStr, numFree_optBool]

theorem numFree_encGroup (g : Group) : numFree (encGroup g) = true := by
  simp [encGroup, numFree, numFreeMems, numFree_optStr]

theorem numFree_encEntitlement (e : Entitlement) : numFree (encEntitlement e) = true := by
  simp [encEntitlement, numFree, numFreeMems, numFree_optStr, numFree_optBool]

theorem numFree_encRole (r : Role) : numFree (encRole r) = true := by
  simp [encRole, numFree, numFreeMems, numFree_optStr, numFree_optBool]

theorem numFree_encX509 (x : X509Certificate) : numFree (encX509 x) = true := by
  simp [encX509, numFree, numFreeMems, numFree_optStr, numFree_optBool]

theorem numFree_encMeta (m : Meta) : numFree (encMeta m) = true := by
  simp [encMeta, numFree, numFreeMems]

theorem numFree_encManager (m : Manager) : numFree (encManager m) = true := by
  simp [encManager, numFree, numFreeMems, numFree_optStr]

theorem numFree_optManager (x : Option Manager) :
    numFree (encOpt encManager x) = true := by
  cases x with
  | none => simp [encOpt, numFree]
  | some m => simpa [encOpt] using numFree_encManager m

theorem numFree_encEnterpriseUser (e : EnterpriseUser) :
    numFree (encEnterpriseUser e) = true := by
  simp [encEnterpriseUser, numFree, numFreeMems, numFree_optStr, numFree_optManager]

theorem numFree_optOf (g : α → Json) (h : ∀ a, numFree (g a) = true) :
    ∀ x : Option α, numFree (encOpt g x) = true
  | none => by simp [encOpt, numFree]
  | some a => by simpa [encOpt] using h a

theorem numFree_encUser (u : User) : numFree (encUser u) = true := by
  show numFreeMems (userEntries u) = true
  simp [userEntries, numFreeMems, show ∀ s, numFree (Json.str s) = true from fun _ => rfl,
    numFree_optStr,
    numFree_optBool, numFree_encList Json.str (fun _ => rfl),
    numFree_optOf encName numFree_encName,
    numFree_optOf encMeta numFree_encMeta,
    numFree_optOf encEnterpriseUser numFree_encEnterpriseUser,
    numFree_optOf (encList encEmail) (numFree_encList encEmail numFree_encEmail),
    numFree_optOf (encList encAddress) (numFree_encList encAddress numFree_encAddress),
    numFree_optOf (encList encPhoneNumber)
      (numFree_encList encPhoneNumber numFree_encPhoneNumber),
    numFree_optOf (encList encIm) (numFree_encList encIm numFree_encIm),
    numFree_optOf (encList encPhoto) (numFree_encList encPhoto numFree_encPhoto),
    numFree_optOf (encList encGroup) (numFree_encList encGroup numFree_encGroup),
    numFree_optOf (encList encEntitlement)
      (numFree_encList encEntitlement numFree_encEntitlement),
    numFree_optOf (encList encRole) (numFree_encList encRole numFree_encRole),
    numFree_optOf (encList encX509) (numFree_encList encX509 numFree_encX509)]

/-- The full string-level round trip: serializing any `User` and parsing the
result back yields the original value. -/
theorem json_to_user_user_to_json (u : User) :
    (user_to_json u).bind json_to_user = Except.ok u := by
  show json_to_user (renderJsonStr (encUser u)) = Except.ok u
  simp only [json_to_user, parseJson_render (encUser u) (numFree_encUser u),
    decUser_encUser u]

/-! ## Unknown top-level keys are ignored by the decoder -/

theorem findKey_skip (k : String) (v : Json) (key : String) (hne : k ≠ key)
    (pre post : List (String × Json)) :
    findKey (pre ++ (k, v) :: post) key = findKey (pre ++ post) key := by
  induction pre with
  | nil => simp [findKey, hne]
  | cons e pre ih =>
    obtain ⟨k2, v2⟩ := e
    simp only [List.cons_append, findKey, List.append_eq, ih]

theorem countKey_skip (k : String) (v : Json) (key : String) (hne : k ≠ key)
    (pre post : List (String × Json)) :
    countKey (pre ++ (k, v) :: post) key = countKey (pre ++ post) key := by
  simp [countKey, keyNames, List.count_cons, hne, Ne.symm hne]

theorem dupKey_congr (es1 es2 : List (String × Json)) (keys : List String)
    (h : ∀ key ∈ keys, countKey es1 key = countKey es2 key) :
    dupKey es1 keys = dupKey es2 keys := by
  induction keys with
  | nil => rfl
  | cons k ks ih =>
    have h2 := ih fun key hk => h key (List.mem_cons_of_mem _ hk)
    simp only [dupKey, List.any_cons] at h2 ⊢
    rw [h k (List.mem_cons_self _ _), h2]

theorem decUserFrom_congr (look1 look2 : String → Option Json)
    (h : ∀ key ∈ userKeys, look1 key = look2 key) :
    decUserFrom look1 = decUserFrom look2 := by
  simp only [decUserFrom, reqField, optField,
    h "schemas" (by decide), h "id" (by decide), h "userName" (by decide),
    h "name" (by decide), h "displayName" (by decide), h "nickName" (by decide),
    h "profileUrl" (by decide), h "title" (by decide), h "userType" (by decide),
    h "preferredLanguage" (by decide), h "locale" (by decide),
    h "timezone" (by decide), h "active" (by decide), h "password" (by decide),
    h "emails" (by decide), h "addresses" (by decide),
    h "phoneNumbers" (by decide), h "ims" (by decide), h "photos" (by decide),
    h "groups" (by decide), h "entitlements" (by decide), h "roles" (by decide),
    h "x509Certificates" (by decide), h "meta" (by decide),
    h enterpriseUrn (by decide)]

/-- Inserting an entry under a key the `User` struct does not bind leaves
the decoding unchanged: serde skips unknown fields. -/
theorem decUser_extra_key (pre post : List (String × Json)) (k : String) (v : Json)
    (hk : k ∉ userKeys) :
    decUser (Json.obj (pre ++ (k, v) :: post)) = decUser (Json.obj (pre ++ post)) := by
  have hcnt : ∀ key ∈ userKeys,
      countKey (pre ++ (k, v) :: post) key = countKey (pre ++ post) key :=
    fun key hkey => countKey_skip k v key (fun he => hk (he ▸ hkey)) pre post
  have hdup : dupKey (pre ++ (k, v) :: post) userKeys =
      dupKey (pre ++ post) userKeys :=
    dupKey_congr _ _ _ hcnt
  have hfind : ∀ key ∈ userKeys,
      findKey (pre ++ (k, v) :: post) key = findKey (pre ++ post) key :=
    fun key hkey => findKey_skip k v key (fun he => hk (he ▸ hkey)) pre post
  simp only [decUser, decStruct, hdup]
  by_cases hd : dupKey (pre ++ post) userKeys = true
  · rw [if_pos hd, if_pos hd]
  · rw [if_neg hd, if_neg hd]
    exact decUserFrom_congr _ _ hfind

/-! ## The decoder requires `schemas` and `userName` -/

theorem ebind_err (e : ε) (f : α → Except ε β) :
    (Except.error e : Except ε α) >>= f = Except.error e := rfl

theorem ebind_ok_iff (x : Except ε α) (f : α → Except ε β) (b : β) :
    x >>= f = Except.ok b ↔ ∃ a, x = Except.ok a ∧ f a = Except.ok b := by
  cases x with
  | error e => simp [ebind_err]
  | ok a => simp [ebind_ok]

/-- A successful `User` decode pins the required fields: `schemas` was
present as an array and `userName` was present as a string (in particular,
neither was missing nor `null`). -/
theorem decUserFrom_ok_required (look : String → Option Json) (u : User)
    (h : decUserFrom look = Except.ok u) :
    (∃ xs, look "schemas" = some (Json.arr xs)) ∧
      (∃ s, look "userName" = some (Json.str s)) := by
  simp only [decUserFrom] at h
  rw [ebind_ok_iff] at h
  obtain ⟨schemas, hA, h⟩ := h
  rw [ebind_ok_iff] at h
  obtain ⟨id, hB, h⟩ := h
  rw [ebind_ok_iff] at h
  obtain ⟨un, hC, h⟩ := h
  constructor
  · simp only [reqField] at hA
    cases hs : look "schemas" with
    | none => rw [hs] at hA; exact absurd hA (by simp)
    | some j =>
      rw [hs] at hA
      cases j <;> first
        | exact ⟨_, rfl⟩
        | exact absurd hA (by simp [decArr])
  · simp only [reqField] at hC
    cases hs : look "userName" with
    | none => rw [hs] at hC; exact absurd hC (by simp)
    | some j =>
      rw [hs] at hC
      cases j <;> first
        | exact ⟨_, rfl⟩
        | exact absurd hC (by simp [decStr])

theorem decUser_ok_required (es : List (String × Json)) (u : User)
    (h : decUser (Json.obj es) = Except.ok u) :
    (∃ xs, findKey es "schemas" = some (Json.arr xs)) ∧
      (∃ s, findKey es "userName" = some (Json.str s)) := by
  simp only [decUser, decStruct] at h
  by_cases hd : dupKey es userKeys = true
  · rw [if_pos hd] at h
    exact absurd h (by simp)
  · rw [if_neg hd] at h
    exact decUserFrom_ok_required _ u h

theorem decUser_obj_err (es : List (String × Json))
    (h : ∀ u, decUser (Json.obj es) ≠ Except.ok u) :
    ∃ m, decUser (Json.obj es) = Except.error m := by
  cases hd : decUser (Json.obj es) with
  | error m => exact ⟨m, rfl⟩
  | ok u => exact absurd hd (h u)

theorem decUser_minimal (ss : List String) (un : String) :
    decUser (minimalUserDoc ss un) =
      Except.ok ⟨ss, none, un, none, none, none, none, none, none, none,
        none, none, none, none, none, none, none, none, none, none, none,
        none, none, none, none⟩ := by
  have h0 : decUser (minimalUserDoc ss un) =
      decUserFrom (findKey
        [("schemas", Json.arr (ss.map Json.str)), ("userName", Json.str un)]) := rfl
  have hS : decArr decStr (Json.arr (ss.map Json.str)) = Except.ok ss :=
    decArr_encList decStr Json.str decStr_enc ss
  rw [h0]
  simp only [decUserFrom, reqField, optField, findKey, String.reduceEq,
    reduceIte, enterpriseUrn, hS, decStr_enc, decOptJson, ebind_ok, epure]

theorem numFree_minimalUserDoc (ss : List String) (un : String) :
    numFree (minimalUserDoc ss un) = true := by
  show numFreeMems _ = true
  simp [numFreeMems, numFree, numFreeElems_map Json.str (fun _ => rfl)]

/-! ## The claims -/

/-- Claim C1, counterexample: the claim says the document produced by
`user_to_json` contains no key for an absent optional attribute; but for
`User::default()` (whose `id` is absent) the produced document does carry
the key `id`, bound to `null`. -/
theorem claim_C1_counterexample :
    User.default.id = none ∧
    user_to_json User.default = Except.ok (renderJsonStr (encUser User.default)) ∧
    "id" ∈ jsonKeys (encUser User.default) ∧
    lookupKey (encUser User.default) "id" = some Json.null :=
  ⟨rfl, rfl, by decide, rfl⟩

/-- Claim C1, amended: `user_to_json` always emits all 25 wire keys — the
source `User` struct has no `skip_serializing_if` attributes — so an absent
optional attribute (such as `id`, `displayName`, `emails`, or the
enterprise extension slot) appears in the output as its key bound to
`null`, rather than being omitted. -/
theorem claim_C1 : ∀ u : User,
    user_to_json u = Except.ok (renderJsonStr (encUser u)) ∧
    jsonKeys (encUser u) = userKeys ∧
    (u.id = none → lookupKey (encUser u) "id" = some Json.null) ∧
    (u.display_name = none → lookupKey (encUser u) "displayName" = some Json.null) ∧
    (u.emails = none → lookupKey (encUser u) "emails" = some Json.null) ∧
    (u.enterprise_user = none → lookupKey (encUser u) enterpriseUrn = some Json.null) := by
  intro u
  refine ⟨rfl, rfl, fun h => ?_, fun h => ?_, fun h => ?_, fun h => ?_⟩
  · rw [show lookupKey (encUser u) "id" = some (encOpt Json.str u.id) from rfl, h]
    rfl
  · rw [show lookupKey (encUser u) "displayName" =
      some (encOpt Json.str u.display_name) from rfl, h]
    rfl
  · rw [show lookupKey (encUser u) "emails" =
      some (encOpt (encList encEmail) u.emails) from rfl, h]
    rfl
  · rw [show lookupKey (encUser u) enterpriseUrn =
      some (encOpt encEnterpriseUser u.enterprise_user) from rfl, h]
    rfl

/-- Claim C1, witness: the amended claim at `User::default()`. -/
theorem claim_C1_witness :
    jsonKeys (encUser User.default) = userKeys ∧
    lookupKey (encUser User.default) "id" = some Json.null ∧
    lookupKey (encUser User.default) "displayName" = some Json.null ∧
    lookupKey (encUser User.default) "emails" = some Json.null ∧
    lookupKey (encUser User.default) enterpriseUrn = some Json.null :=
  ⟨(claim_C1 User.default).2.1,
   (claim_C1 User.default).2.2.1 rfl,
   (claim_C1 User.default).2.2.2.1 rfl,
   (claim_C1 User.default).2.2.2.2.1 rfl,
   (claim_C1 User.default).2.2.2.2.2 rfl⟩

/-- Claim C2: in the source, the membership record `Group` renames `ref_`
to `$ref` but carries no rename on `type_`, so the encoded membership
record uses the literal key `type_` — never `type` — while `$ref` is
correct. Evaluated at a user with one fully populated group membership. -/
theorem claim_C2_theorem :
    lookupKey (encUser userWithGroup) "groups" =
      some (Json.arr [encGroup tourGuideGroup]) ∧
    jsonKeys (encGroup tourGuideGroup) = ["value", "$ref", "display", "type_"] ∧
    "type" ∉ jsonKeys (encGroup tourGuideGroup) ∧
    lookupKey (encGroup tourGuideGroup) "$ref" =
      some (Json.str "https://example.com/v2/Groups/e9e30dba-f08f-4109-8486-d5c6a331660a") ∧
    lookupKey (encGroup tourGuideGroup) "type_" = some (Json.str "direct") :=
  ⟨rfl, rfl, by decide, rfl, rfl⟩

/-- Claim C3: the full round trip — serializing any `User` value with
`user_to_json` and deserializing with `json_to_user` returns the value,
attribute for attribute, lists element-wise in order. -/
theorem claim_C3 (u : User) :
    (user_to_json u).bind json_to_user = Except.ok u :=
  json_to_user_user_to_json u

/-- Claim C4: the `User` struct binds no `externalId` attribute. Decoding a
document with a non-null top-level `externalId` succeeds but drops the
value — the decoded user is `c4User`, and re-encoding produces exactly the
25 bound wire keys, `externalId` not among them. -/
theorem claim_C4_theorem :
    json_to_user c4doc = Except.ok c4User ∧
    "externalId" ∉ userKeys ∧
    jsonKeys (encUser c4User) = userKeys := by
  refine ⟨?_, by decide, rfl⟩
  have hn : numFree c4docJson = true := by
    simp [c4docJson, numFree, numFreeElems, numFreeMems]
  simp only [c4doc, json_to_user, parseJson_render c4docJson hn]
  rfl

/-- Claim C5: `validate_user` reports an empty `schemas` first, then an
empty `user_name`, and accepts otherwise. -/
theorem claim_C5 :
    (∀ u : User, u.schemas = [] →
      validate_user u = Except.error (SCIMError.MissingRequiredField "schemas")) ∧
    (∀ u : User, u.schemas ≠ [] → u.user_name = "" →
      validate_user u = Except.error (SCIMError.MissingRequiredField "user_name")) ∧
    (∀ u : User, u.schemas ≠ [] → u.user_name ≠ "" →
      validate_user u = Except.ok ()) := by
  refine ⟨fun u h => ?_, fun u h1 h2 => ?_, fun u h1 h2 => ?_⟩
  · simp [validate_user, h]
  · simp [validate_user, List.isEmpty_iff, String.isEmpty_iff, h1, h2]
  · simp [validate_user, List.isEmpty_iff, String.isEmpty_iff, h1, h2]

/-- Claim C5, witness: the three branches at concrete users. -/
theorem claim_C5_witness :
    validate_user (userWith [] "") =
      Except.error (SCIMError.MissingRequiredField "schemas") ∧
    validate_user (userWith [coreUserUrn] "") =
      Except.error (SCIMError.MissingRequiredField "user_name") ∧
    validate_user (userWith [coreUserUrn] "bjensen@example.com") = Except.ok () :=
  ⟨claim_C5.1 _ rfl,
   claim_C5.2.1 _ (by decide) rfl,
   claim_C5.2.2 _ (by decide) (by decide)⟩

/-- Claim C6: `validate_service_provider_config` checks `patch`, `bulk`,
`filter`, `change_password`, `sort`, `etag` in that order, reports the
first sub-record whose `supported` is false without examining the later
ones, and accepts when all six are supported. -/
theorem claim_C6 :
    (∀ c : ServiceProviderConfig, c.patch.supported = false →
      validate_service_provider_config c =
        Except.error (SCIMError.MissingRequiredField "patch")) ∧
    (∀ c : ServiceProviderConfig, c.patch.supported = true →
      c.bulk.supported = false →
      validate_service_provider_config c =
        Except.error (SCIMError.MissingRequiredField "bulk")) ∧
    (∀ c : ServiceProviderConfig, c.patch.supported = true →
      c.bulk.supported = true → c.filter.supported = false →
      validate_service_provider_config c =
        Except.error (SCIMError.MissingRequiredField "filter")) ∧
    (∀ c : ServiceProviderConfig, c.patch.supported = true →
      c.bulk.supported = true → c.filter.supported = true →
      c.change_password.supported = false →
      validate_service_provider_config c =
        Except.error (SCIMError.MissingRequiredField "change_password")) ∧
    (∀ c : ServiceProviderConfig, c.patch.supported = true →
      c.bulk.supported = true → c.filter.supported = true →
      c.change_password.supported = true → c.sort.supported = false →
      validate_service_provider_config c =
        Except.error (SCIMError.MissingRequiredField "sort")) ∧
    (∀ c : ServiceProviderConfig, c.patch.supported = true →
      c.bulk.supported = true → c.filter.supported = true →
      c.change_password.supported = true → c.sort.supported = true →
      c.etag.supported = false →
      validate_service_provider_config c =
        Except.error (SCIMError.MissingRequiredField "etag")) ∧
    (∀ c : ServiceProviderConfig, c.patch.supported = true →
      c.bulk.supported = true → c.filter.supported = true →
      c.change_password.supported = true → c.sort.supported = true →
      c.etag.supported = true →
      validate_service_provider_config c = Except.ok ()) := by
  refine ⟨fun c h1 => ?_, fun c h1 h2 => ?_, fun c h1 h2 h3 => ?_,
    fun c h1 h2 h3 h4 => ?_, fun c h1 h2 h3 h4 h5 => ?_,
    fun c h1 h2 h3 h4 h5 h6 => ?_, fun c h1 h2 h3 h4 h5 h6 => ?_⟩ <;>
    simp [validate_service_provider_config, h1]
  all_goals simp_all

/-- Claim C6, witness: a config with `patch` and `bulk` supported but
`filter` unsupported is rejected as `filter` (the S6 scenario), and the
all-supported config is accepted. -/
theorem claim_C6_witness :
    validate_service_provider_config
      ⟨none, ⟨true⟩, ⟨true, 1000, 1048576⟩, ⟨false, 200⟩, ⟨true⟩, ⟨true⟩,
       ⟨true⟩, [], none⟩ =
      Except.error (SCIMError.MissingRequiredField "filter") ∧
    validate_service_provider_config
      ⟨none, ⟨true⟩, ⟨true, 1000, 1048576⟩, ⟨true, 200⟩, ⟨true⟩, ⟨true⟩,
       ⟨true⟩, [], none⟩ =
      Except.ok () :=
  ⟨claim_C6.2.2.1 _ rfl rfl rfl,
   claim_C6.2.2.2.2.2.2 _ rfl rfl rfl rfl rfl rfl⟩

/-- Claim C7, counterexample: a document with `"displayName": null` does
decode to a user with `display_name` absent, but re-encoding emits the
`displayName` key again (bound to `null`), so the value does not
round-trip to JSON without that key, contrary to the claim. -/
theorem claim_C7_counterexample :
    json_to_user (renderJsonStr (Json.obj
        [("schemas", Json.arr [Json.str "x"]), ("userName", Json.str "u"),
         ("displayName", Json.null)])) =
      Except.ok (userWith ["x"] "u") ∧
    "displayName" ∈ jsonKeys (encUser (userWith ["x"] "u")) ∧
    lookupKey (encUser (userWith ["x"] "u")) "displayName" = some Json.null := by
  refine ⟨?_, by decide, rfl⟩
  have hn : numFree (Json.obj
      [("schemas", Json.arr [Json.str "x"]), ("userName", Json.str "u"),
       ("displayName", Json.null)]) = true := by
    simp [numFree, numFreeElems, numFreeMems]
  simp only [json_to_user, parseJson_render _ hn]
  rfl

/-- Claim C7, amended: decoding a document that binds every optional
attribute to `null` yields a user in which every optional attribute is
absent, and re-encoding that user emits every optional key bound to `null`
(not omitted). The document used is exactly the encoding of the all-absent
user, whose 23 optional keys all carry `null`. -/
theorem claim_C7 :
    encUser (userWith [coreUserUrn] "bjensen@example.com") =
      Json.obj [("schemas", Json.arr [Json.str coreUserUrn]),
        ("id", Json.null),
        ("userName", Json.str "bjensen@example.com"),
        ("name", Json.null), ("displayName", Json.null),
        ("nickName", Json.null), ("profileUrl", Json.null),
        ("title", Json.null), ("userType", Json.null),
        ("preferredLanguage", Json.null), ("locale", Json.null),
        ("timezone", Json.null), ("active", Json.null),
        ("password", Json.null), ("emails", Json.null),
        ("addresses", Json.null), ("phoneNumbers", Json.null),
        ("ims", Json.null), ("photos", Json.null), ("groups", Json.null),
        ("entitlements", Json.null), ("roles", Json.null),
        ("x509Certificates", Json.null), ("meta", Json.null),
        (enterpriseUrn, Json.null)] ∧
    json_to_user (renderJsonStr (encUser (userWith [coreUserUrn] "bjensen@example.com"))) =
      Except.ok (userWith [coreUserUrn] "bjensen@example.com") ∧
    user_to_json (userWith [coreUserUrn] "bjensen@example.com") =
      Except.ok (renderJsonStr (encUser (userWith [coreUserUrn] "bjensen@example.com"))) :=
  ⟨rfl, json_to_user_user_to_json (userWith [coreUserUrn] "bjensen@example.com"), rfl⟩

/-- Claim C8: decoding ignores an inserted top-level entry under any key
the `User` struct does not bind — the result is the same as without it —
and every encoded user carries exactly the 25 bound keys, so the re-encoded
value never reintroduces unknown keys. -/
theorem claim_C8 :
    (∀ (pre post : List (String × Json)) (k : String) (v : Json),
      k ∉ userKeys →
      decUser (Json.obj (pre ++ (k, v) :: post)) = decUser (Json.obj (pre ++ post))) ∧
    (∀ u : User, jsonKeys (encUser u) = userKeys) :=
  ⟨fun pre post k v hk => decUser_extra_key pre post k v hk, fun _ => rfl⟩

/-- Claim C8, witness: an unknown `favoriteColor` entry is ignored, and the
default user's encoding carries exactly the bound keys. -/
theorem claim_C8_witness :
    decUser (Json.obj ([] ++ ("favoriteColor", Json.str "red") ::
        [("schemas", Json.arr [Json.str "x"]), ("userName", Json.str "u")])) =
      decUser (Json.obj ([] ++
        [("schemas", Json.arr [Json.str "x"]), ("userName", Json.str "u")])) ∧
    jsonKeys (encUser User.default) = userKeys :=
  ⟨claim_C8.1 [] _ "favoriteColor" (Json.str "red") (by decide),
   claim_C8.2 User.default⟩

/-- Claim C9, counterexample: a document whose two required attributes are
present and well-typed still fails to decode when another attribute is
ill-typed (`"active": "yes"`), so success does not follow from the required
attributes alone. -/
theorem claim_C9_counterexample :
    json_to_user (renderJsonStr (Json.obj
        [("schemas", Json.arr [Json.str "urn:ietf:params:scim:schemas:core:2.0:User"]),
         ("userName", Json.str "bjensen@example.com"),
         ("active", Json.str "yes")])) =
      Except.error (SCIMError.DeserializationError "invalid type: expected a boolean") := by
  have hn : numFree (Json.obj
      [("schemas", Json.arr [Json.str "urn:ietf:params:scim:schemas:core:2.0:User"]),
       ("userName", Json.str "bjensen@example.com"),
       ("active", Json.str "yes")]) = true := by
    simp [numFree, numFreeElems, numFreeMems]
  simp only [json_to_user, parseJson_render _ hn]
  rfl

/-- Claim C9, amended: `json_to_user` fails with `DeserializationError`
when the input is not valid JSON, when `schemas` or `userName` is missing,
or when either is `null`; and it succeeds on documents where the required
attributes are present and well-typed and every other present attribute is
well-typed — in particular on every document carrying exactly the two
required attributes. -/
theorem claim_C9 :
    (∀ s e, parseJson s = Except.error e →
      json_to_user s = Except.error (SCIMError.DeserializationError e)) ∧
    (∀ s es, parseJson s = Except.ok (Json.obj es) → findKey es "schemas" = none →
      ∃ m, json_to_user s = Except.error (SCIMError.DeserializationError m)) ∧
    (∀ s es, parseJson s = Except.ok (Json.obj es) → findKey es "userName" = none →
      ∃ m, json_to_user s = Except.error (SCIMError.DeserializationError m)) ∧
    (∀ s es, parseJson s = Except.ok (Json.obj es) →
      findKey es "schemas" = some Json.null →
      ∃ m, json_to_user s = Except.error (SCIMError.DeserializationError m)) ∧
    (∀ s es, parseJson s = Except.ok (Json.obj es) →
      findKey es "userName" = some Json.null →
      ∃ m, json_to_user s = Except.error (SCIMError.DeserializationError m)) ∧
    (∀ (ss : List String) (un : String),
      json_to_user (renderJsonStr (minimalUserDoc ss un)) =
        Except.ok (userWith ss un)) := by
  have lift : ∀ s es, parseJson s = Except.ok (Json.obj es) →
      (∀ u, decUser (Json.obj es) ≠ Except.ok u) →
      ∃ m, json_to_user s = Except.error (SCIMError.DeserializationError m) := by
    intro s es hp hne
    obtain ⟨m, hm⟩ := decUser_obj_err es hne
    exact ⟨m, by simp [json_to_user, hp, hm]⟩
  refine ⟨fun s e hp => by simp [json_to_user, hp],
    fun s es hp hnone => lift s es hp ?_,
    fun s es hp hnone => lift s es hp ?_,
    fun s es hp hnull => lift s es hp ?_,
    fun s es hp hnull => lift s es hp ?_,
    fun ss un => ?_⟩
  · intro u hu
    obtain ⟨⟨xs, hxs⟩, _⟩ := decUser_ok_required es u hu
    rw [hnone] at hxs
    exact Option.noConfusion hxs
  · intro u hu
    obtain ⟨_, ⟨s2, hs2⟩⟩ := decUser_ok_required es u hu
    rw [hnone] at hs2
    exact Option.noConfusion hs2
  · intro u hu
    obtain ⟨⟨xs, hxs⟩, _⟩ := decUser_ok_required es u hu
    rw [hnull] at hxs
    exact Json.noConfusion (Option.some.inj hxs)
  · intro u hu
    obtain ⟨_, ⟨s2, hs2⟩⟩ := decUser_ok_required es u hu
    rw [hnull] at hs2
    exact Json.noConfusion (Option.some.inj hs2)
  · simp only [json_to_user,
      parseJson_render (minimalUserDoc ss un) (numFree_minimalUserDoc ss un),
      decUser_minimal ss un]
    rfl

/-- Claim C9, witness: malformed input, a missing `schemas`, a `null`
`schemas`, and a minimal well-typed document, all concrete. -/
theorem claim_C9_witness :
    json_to_user "nonsense" =
      Except.error (SCIMError.DeserializationError "expected value") ∧
    (∃ m, json_to_user (renderJsonStr (Json.obj [("userName", Json.str "x")])) =
      Except.error (SCIMError.DeserializationError m)) ∧
    (∃ m, json_to_user (renderJsonStr (Json.obj
        [("schemas", Json.null), ("userName", Json.str "x")])) =
      Except.error (SCIMError.DeserializationError m)) ∧
    json_to_user (renderJsonStr (minimalUserDoc ["a"] "x")) =
      Except.ok (userWith ["a"] "x") :=
  ⟨claim_C9.1 "nonsense" "expected value" rfl,
   claim_C9.2.1 (renderJsonStr (Json.obj [("userName", Json.str "x")]))
     [("userName", Json.str "x")]
     (parseJson_render _ (by simp [numFree, numFreeMems])) rfl,
   claim_C9.2.2.2.1 (renderJsonStr (Json.obj
       [("schemas", Json.null), ("userName", Json.str "x")]))
     [("schemas", Json.null), ("userName", Json.str "x")]
     (parseJson_render _ (by simp [numFree, numFreeMems])) rfl,
   claim_C9.2.2.2.2.2 ["a"] "x"⟩

/-- Claim C10: the default-constructed `User` pre-populates `schemas` with
the core-User URN and `user_name` with the non-empty placeholder
`"bjensen@example.com"`, so `validate_user` accepts it. -/
theorem claim_C10 :
    User.default.schemas = ["urn:ietf:params:scim:schemas:core:2.0:User"] ∧
    User.default.user_name = "bjensen@example.com" ∧
    validate_user User.default = Except.ok () :=
  ⟨rfl, rfl, rfl⟩

end Scim
